import Mathlib

/-!
# Verification of the YoureHired agent-orchestration core

Shallow embedding, in Lean 4, of the orchestration core of the YoureHired
backend (`backend/app/services` and `backend/app/agents/guardrails`), together
with proofs/refutations of the frozen specification claims.

Conventions of the embedding:
* Python lists become `List`, dictionaries keyed by session id become
  association lists (Python dicts have unique keys; all our constructions
  preserve that), exceptions become `Except`/explicit error variants,
  and async generators become pure functions from an *outcome environment*
  (the results of the awaited agent calls, listed in completion order)
  to the list of server-sent events the generator yields.
* Event dictionaries are modelled by the inductive `Ev`; the `phase` key,
  which no claim mentions, is dropped.
* Strings checked by the guardrail regexes are modelled as their list of
  Unicode code points (`List Nat`); `re.IGNORECASE` is modelled by ASCII
  lowercasing of the text and of the (all-ASCII) pattern literals.
-/

namespace YoureHired

/-! ## Task Registry (backend/app/services/task_registry.py)

`TaskRegistry._active : dict[str, list[RunResultStreaming]]` is modelled as an
association list from session id to the list of registered handles.  A handle
is identified by a `Nat`; whether a handle `is_complete` is an environment
parameter, and the cancel calls (`result.cancel(mode="immediate")`) issued so
far are recorded in the `cancelled` field of the state. -/

/-- State of the registry: the `_active` map plus the record of which handles
have received a `cancel(mode="immediate")` call. -/
structure RegState where
  active : List (String × List Nat)
  cancelled : List Nat
deriving DecidableEq, Repr

/-- The freshly constructed registry (`TaskRegistry.__init__`). -/
def RegState.init : RegState := ⟨[], []⟩

/-- Python `self._active.get(session_id)`: first (unique) matching entry. -/
def lookupActive (m : List (String × List Nat)) (sid : String) : Option (List Nat) :=
  match m with
  | [] => none
  | (k, v) :: rest => if k = sid then some v else lookupActive rest sid

/-- Replace the value stored under an existing key (Python `d[k].append` etc.
mutates in place, keeping insertion order). -/
def setActive (m : List (String × List Nat)) (sid : String) (v : List Nat) :
    List (String × List Nat) :=
  match m with
  | [] => []
  | (k, w) :: rest => if k = sid then (k, v) :: rest else (k, w) :: setActive rest sid v

/-- Python `del d[k]` / `d.pop(k, ...)`: drop the (unique) entry for the key. -/
def dropActive (m : List (String × List Nat)) (sid : String) : List (String × List Nat) :=
  match m with
  | [] => []
  | (k, w) :: rest => if k = sid then rest else (k, w) :: dropActive rest sid

/-- `register`: `self._active.setdefault(session_id, []).append(result)`.
NOTE: in the source this is the whole method body — there is no
cancelled-marker check (see `C1`). -/
def RegState.register (st : RegState) (sid : String) (h : Nat) : RegState :=
  match lookupActive st.active sid with
  | some hs => { st with active := setActive st.active sid (hs ++ [h]) }
  | none => { st with active := st.active ++ [(sid, [h])] }

/-- `unregister`: remove the first occurrence of the handle
(`list.remove`), dropping the entry if the list becomes empty; a
`ValueError` from `remove` (handle absent) is swallowed, skipping the
empty-list check. -/
def RegState.unregister (st : RegState) (sid : String) (h : Nat) : RegState :=
  match lookupActive st.active sid with
  | none => st
  | some hs =>
    if h ∈ hs then
      let hs' := hs.erase h
      if hs' = [] then { st with active := dropActive st.active sid }
      else { st with active := setActive st.active sid hs' }
    else st

/-- `cancel_all`: pop all handles for the id and cancel every handle that is
not yet complete.  NOTE: in the source this does not record any
cancelled-marker for the id (see `C1`). -/
def RegState.cancelAll (st : RegState) (isComplete : Nat → Bool) (sid : String) : RegState :=
  let results := (lookupActive st.active sid).getD []
  { active := dropActive st.active sid,
    cancelled := st.cancelled ++ results.filter (fun h => ¬ isComplete h) }

/-- `cleanup`: `self._active.pop(session_id, None)`.  NOTE: in the source this
neither cancels the popped handles nor clears any cancelled-marker. -/
def RegState.cleanup (st : RegState) (sid : String) : RegState :=
  { st with active := dropActive st.active sid }

/-- One registry operation, for reasoning about arbitrary interleavings. -/
inductive RegOp where
  | register (sid : String) (h : Nat)
  | unregister (sid : String) (h : Nat)
  | cancelAll (sid : String)
  | cleanup (sid : String)
deriving DecidableEq, Repr

/-- Apply one operation to a state. -/
def RegState.step (isComplete : Nat → Bool) (st : RegState) : RegOp → RegState
  | .register sid h => st.register sid h
  | .unregister sid h => st.unregister sid h
  | .cancelAll sid => st.cancelAll isComplete sid
  | .cleanup sid => st.cleanup sid

/-- Run a sequence of operations from the fresh registry. -/
def runRegOps (isComplete : Nat → Bool) (ops : List RegOp) : RegState :=
  ops.foldl (RegState.step isComplete) RegState.init

/-! ### Association-list lemmas -/

theorem lookupActive_mem {m : List (String × List Nat)} {sid : String} {v : List Nat}
    (h : lookupActive m sid = some v) : (sid, v) ∈ m := by
  induction m with
  | nil => simp [lookupActive] at h
  | cons p rest ih =>
    obtain ⟨k, w⟩ := p
    by_cases hk : k = sid
    · subst hk
      simp [lookupActive] at h
      subst h
      exact List.mem_cons_self _ _
    · simp [lookupActive, hk] at h
      exact List.mem_cons_of_mem _ (ih h)

theorem mem_setActive {m : List (String × List Nat)} {sid : String} {v : List Nat}
    {p : String × List Nat} (h : p ∈ setActive m sid v) : p ∈ m ∨ p.2 = v := by
  induction m with
  | nil => simp [setActive] at h
  | cons q rest ih =>
    obtain ⟨k, w⟩ := q
    by_cases hk : k = sid
    · subst hk
      simp [setActive] at h
      rcases h with h | h
      · right; rw [h]
      · left; exact List.mem_cons_of_mem _ h
    · simp [setActive, hk] at h
      rcases h with h | h
      · left; rw [h]; exact List.mem_cons_self _ _
      · rcases ih h with h' | h'
        · left; exact List.mem_cons_of_mem _ h'
        · right; exact h'

theorem mem_dropActive {m : List (String × List Nat)} {sid : String}
    {p : String × List Nat} (h : p ∈ dropActive m sid) : p ∈ m := by
  induction m with
  | nil => simp [dropActive] at h
  | cons q rest ih =>
    obtain ⟨k, w⟩ := q
    by_cases hk : k = sid
    · subst hk
      simp [dropActive] at h
      exact List.mem_cons_of_mem _ h
    · simp [dropActive, hk] at h
      rcases h with h | h
      · rw [h]; exact List.mem_cons_self _ _
      · exact List.mem_cons_of_mem _ (ih h)

theorem lookupActive_append_of_none {m : List (String × List Nat)} {sid : String}
    (h : lookupActive m sid = none) (v : List Nat) :
    lookupActive (m ++ [(sid, v)]) sid = some v := by
  induction m with
  | nil => simp [lookupActive]
  | cons q rest ih =>
    obtain ⟨k, w⟩ := q
    by_cases hk : k = sid
    · simp [lookupActive, hk] at h
    · simp [lookupActive, hk] at h ⊢
      exact ih h

theorem dropActive_append_of_none {m : List (String × List Nat)} {sid : String}
    (h : lookupActive m sid = none) (v : List Nat) :
    dropActive (m ++ [(sid, v)]) sid = m := by
  induction m with
  | nil => simp [dropActive]
  | cons q rest ih =>
    obtain ⟨k, w⟩ := q
    by_cases hk : k = sid
    · simp [lookupActive, hk] at h
    · simp [lookupActive, hk] at h
      simp [dropActive, hk, ih h]

theorem lookupActive_setActive_self {m : List (String × List Nat)} {sid : String}
    {w : List Nat} (h : lookupActive m sid = some w) (v : List Nat) :
    lookupActive (setActive m sid v) sid = some v := by
  induction m with
  | nil => simp [lookupActive] at h
  | cons q rest ih =>
    obtain ⟨k, u⟩ := q
    by_cases hk : k = sid
    · simp [setActive, lookupActive, hk]
    · simp [lookupActive, hk] at h
      simp [setActive, lookupActive, hk]
      exact ih h

theorem map_fst_setActive {m : List (String × List Nat)} {sid : String} {v : List Nat} :
    (setActive m sid v).map Prod.fst = m.map Prod.fst := by
  induction m with
  | nil => simp [setActive]
  | cons q rest ih =>
    obtain ⟨k, w⟩ := q
    by_cases hk : k = sid
    · simp [setActive, hk]
    · simp only [setActive, if_neg hk, List.map_cons, ih]

theorem lookupActive_dropActive_self {m : List (String × List Nat)} {sid : String}
    (hnd : (m.map Prod.fst).Nodup) :
    lookupActive (dropActive m sid) sid = none := by
  induction m with
  | nil => simp [dropActive, lookupActive]
  | cons q rest ih =>
    obtain ⟨k, w⟩ := q
    simp only [List.map_cons, List.nodup_cons] at hnd
    by_cases hk : k = sid
    · subst hk
      simp only [dropActive, if_pos rfl]
      -- k does not occur among the remaining keys, so lookup fails
      clear ih
      induction rest with
      | nil => simp [lookupActive]
      | cons r rest' ih' =>
        obtain ⟨k', w'⟩ := r
        simp only [List.map_cons, List.mem_cons, List.nodup_cons] at hnd
        have hk' : k' ≠ k := fun h => hnd.1 (Or.inl h.symm)
        simp only [lookupActive, if_neg hk']
        exact ih' ⟨fun h => hnd.1 (Or.inr h), hnd.2.2⟩
    · simp only [dropActive, if_neg hk, lookupActive, if_neg hk]
      exact ih hnd.2

/-! ### The per-id non-emptiness invariant (C9) -/

/-- Every id present in `_active` maps to a non-empty handle list. -/
def RegInv (st : RegState) : Prop :=
  ∀ p ∈ st.active, p.2 ≠ []

theorem regInv_init : RegInv RegState.init := by
  intro p hp
  simp [RegState.init] at hp

theorem regInv_step {st : RegState} (isComplete : Nat → Bool) (op : RegOp)
    (h : RegInv st) : RegInv (st.step isComplete op) := by
  cases op with
  | register sid hdl =>
    simp only [RegState.step, RegState.register]
    cases hlk : lookupActive st.active sid with
    | some hs =>
      intro p hp
      rcases mem_setActive hp with hp' | hp'
      · exact h p hp'
      · simp [hp']
    | none =>
      intro p hp
      rcases List.mem_append.mp hp with hp' | hp'
      · exact h p hp'
      · simp at hp'
        simp [hp']
  | unregister sid hdl =>
    simp only [RegState.step, RegState.unregister]
    cases hlk : lookupActive st.active sid with
    | none => exact h
    | some hs =>
      by_cases hmem : hdl ∈ hs
      · simp only [if_pos hmem]
        by_cases hnil : hs.erase hdl = []
        · simp only [if_pos hnil]
          intro p hp
          exact h p (mem_dropActive hp)
        · simp only [if_neg hnil]
          intro p hp
          rcases mem_setActive hp with hp' | hp'
          · exact h p hp'
          · rw [hp']; exact hnil
      · simp only [if_neg hmem]
        exact h
  | cancelAll sid =>
    intro p hp
    exact h p (mem_dropActive hp)
  | cleanup sid =>
    intro p hp
    exact h p (mem_dropActive hp)

theorem regInv_runRegOps (isComplete : Nat → Bool) (ops : List RegOp) :
    RegInv (runRegOps isComplete ops) := by
  suffices H : ∀ st, RegInv st → RegInv (ops.foldl (RegState.step isComplete) st) from
    H RegState.init regInv_init
  induction ops with
  | nil => intro st h; exact h
  | cons op rest ih =>
    intro st h
    exact ih _ (regInv_step isComplete op h)

/-! ## Agent Invocation Wrapper (`run_agent_streamed`) -/

/-- Outcome of draining one agent stream under `asyncio.wait_for`. -/
inductive StreamOutcome (α : Type) where
  | success (v : Option α)
  | timeout
  | exc (msg : String)

/-- The error raised out of `run_agent_streamed`. -/
inductive RunError where
  | timeout
  | exc (msg : String)
deriving DecidableEq, Repr

/-- `run_agent_streamed`: start the streamed run (handle `h`), register it,
drain the stream; on `TimeoutError` cancel the handle and re-raise; let other
exceptions propagate; in a `finally` block always unregister the handle. -/
def run_agent_streamed {α : Type} (sid : String) (h : Nat) (o : StreamOutcome α)
    (st : RegState) : Except RunError (Option α) × RegState :=
  let st1 := st.register sid h
  match o with
  | .success v => (.ok v, st1.unregister sid h)
  | .timeout =>
    (.error .timeout, { st1 with cancelled := st1.cancelled ++ [h] }.unregister sid h)
  | .exc m => (.error (.exc m), st1.unregister sid h)

/-- A handle is fresh when it is registered nowhere in the map. -/
def freshHandle (st : RegState) (h : Nat) : Prop :=
  ∀ p ∈ st.active, h ∉ p.2

theorem unregister_after_register {st : RegState} {sid : String} {h : Nat}
    (hnd : (st.active.map Prod.fst).Nodup) (hfresh : freshHandle st h)
    {cs : List Nat} :
    ∀ l, lookupActive (RegState.unregister { active := (st.register sid h).active, cancelled := cs } sid h).active sid = some l → h ∉ l := by
  intro l hl
  cases hlk : lookupActive st.active sid with
  | none =>
    -- the id was absent: register appended a singleton entry, unregister drops it
    have heq : RegState.unregister ⟨st.active ++ [(sid, [h])], cs⟩ sid h =
        ⟨st.active, cs⟩ := by
      simp [RegState.unregister, lookupActive_append_of_none hlk [h],
        dropActive_append_of_none hlk [h]]
    simp only [RegState.register, hlk] at hl
    rw [heq] at hl
    simp only at hl
    rw [hlk] at hl
    exact absurd hl (by simp)
  | some hs =>
    have hmem := lookupActive_mem hlk
    have hnotin : h ∉ hs := hfresh _ hmem
    simp only [RegState.register, hlk] at hl
    simp only [RegState.unregister,
      lookupActive_setActive_self hlk (hs ++ [h])] at hl
    have hin : h ∈ hs ++ [h] := by simp
    rw [if_pos hin] at hl
    have herase : (hs ++ [h]).erase h = hs := by
      rw [List.erase_append_right _ hnotin]
      simp
    rw [herase] at hl
    by_cases hnil : hs = []
    · rw [if_pos hnil] at hl
      have hmap : (setActive st.active sid (hs ++ [h])).map Prod.fst =
          st.active.map Prod.fst := map_fst_setActive
      rw [lookupActive_dropActive_self (hmap ▸ hnd)] at hl
      exact absurd hl (by simp)
    · rw [if_neg hnil] at hl
      -- setActive twice: the final value at sid is hs, which does not contain h
      have : lookupActive (setActive (setActive st.active sid (hs ++ [h])) sid hs) sid = some hs :=
        lookupActive_setActive_self (lookupActive_setActive_self hlk (hs ++ [h])) hs
      rw [this] at hl
      cases hl
      exact hnotin

/-! ## Claim theorems about the Task Registry -/

/-- C1 (code_bug evidence): the source `TaskRegistry` keeps no cancelled-marker.
After `register("s", h1); cancel_all("s")`, a subsequent `register("s", h2)`
leaves `h2` active and uncancelled (only `h1` ever received a cancel call),
contradicting `test_register_after_cancel_all_immediately_cancels` and
`test_is_cancelled_*` in `tests/test_task_registry.py` (the class has no
`is_cancelled` method at all, although `scout_orchestrator._check_cancelled`
calls it). -/
theorem claim_C1_register_after_cancel_not_cancelled :
    lookupActive (runRegOps (fun _ => false)
      [RegOp.register "s" 1, RegOp.cancelAll "s", RegOp.register "s" 2]).active "s"
        = some [2] ∧
    2 ∉ (runRegOps (fun _ => false)
      [RegOp.register "s" 1, RegOp.cancelAll "s", RegOp.register "s" 2]).cancelled ∧
    1 ∈ (runRegOps (fun _ => false)
      [RegOp.register "s" 1, RegOp.cancelAll "s", RegOp.register "s" 2]).cancelled := by
  decide

/-- C3: on every outcome of `run_agent_streamed` — normal return, timeout, or
any other raised exception — the handle registered at the start of the call is
no longer registered under the session id when the call finishes. -/
theorem claim_C3 {α : Type} (sid : String) (h : Nat) (o : StreamOutcome α)
    (st : RegState) (hnd : (st.active.map Prod.fst).Nodup)
    (hfresh : freshHandle st h) :
    ∀ l, lookupActive (run_agent_streamed sid h o st).2.active sid = some l → h ∉ l := by
  cases o with
  | success v => exact unregister_after_register hnd hfresh
  | timeout => exact unregister_after_register hnd hfresh
  | exc m => exact unregister_after_register hnd hfresh

theorem claim_C3_witness : (7 : Nat) ∉ ([5] : List Nat) :=
  claim_C3 (α := String) "s" 7 (StreamOutcome.success (some "out")) ⟨[("s", [5])], []⟩
    (by decide)
    (by intro p hp; rw [List.mem_singleton] at hp; subst hp; decide)
    [5] (by decide)

/-- C8: registering then unregistering a handle under an absent id leaves the
registry with no entry for the id, and unregistering a handle that is not
registered is a no-op. -/
theorem claim_C8 :
    (∀ (st : RegState) (sid : String) (h : Nat),
      lookupActive st.active sid = none →
      lookupActive ((st.register sid h).unregister sid h).active sid = none) ∧
    (∀ (st : RegState) (sid : String) (h : Nat),
      h ∉ (lookupActive st.active sid).getD [] → st.unregister sid h = st) := by
  constructor
  · intro st sid h habs
    have heq : RegState.unregister ⟨st.active ++ [(sid, [h])], st.cancelled⟩ sid h =
        ⟨st.active, st.cancelled⟩ := by
      simp [RegState.unregister, lookupActive_append_of_none habs [h],
        dropActive_append_of_none habs [h]]
    have hreg : st.register sid h = ⟨st.active ++ [(sid, [h])], st.cancelled⟩ := by
      unfold RegState.register
      rw [habs]
    rw [hreg, heq]
    exact habs
  · intro st sid h hnot
    unfold RegState.unregister
    cases hlk : lookupActive st.active sid with
    | none => rfl
    | some hs =>
      rw [hlk] at hnot
      simp only [Option.getD_some] at hnot
      simp [hnot]

theorem claim_C8_witness :
    lookupActive RegState.init.active "a" = none ∧
    lookupActive ((RegState.init.register "a" 3).unregister "a" 3).active "a" = none ∧
    (2 : Nat) ∉ (lookupActive RegState.init.active "a").getD [] ∧
    RegState.init.unregister "a" 2 = RegState.init :=
  ⟨rfl, claim_C8.1 RegState.init "a" 3 rfl, by decide,
    claim_C8.2 RegState.init "a" 2 (by decide)⟩

/-- C9: in every registry state reachable by any sequence of register,
unregister, cancel_all and cleanup operations, every id present in the active
map maps to a non-empty handle list. -/
theorem claim_C9 (isComplete : Nat → Bool) (ops : List RegOp) (sid : String)
    (l : List Nat) (h : lookupActive (runRegOps isComplete ops).active sid = some l) :
    l ≠ [] :=
  regInv_runRegOps isComplete ops _ (lookupActive_mem h)

theorem claim_C9_witness : ([1] : List Nat) ≠ [] :=
  claim_C9 (fun _ => false) [RegOp.register "a" 1] "a" [1] (by decide)

/-! ## Streamed events

The pipelines yield dictionaries with a `type` key drawn from
status/candidate/progress/complete/error.  We model them by an inductive
parametrised by the payload type carried by `complete` (the `model_dump()` of
the result object); the optional `phase` key of the scout events, which no
claim mentions, is dropped. -/

inductive Ev (π : Type) where
  | status (message : String)
  | candidate (generator : String) (title : String)
  | progress (message : String)
  | complete (data : π)
  | error (message : String)
deriving DecidableEq, Repr

/-- `complete` and `error` are the terminal marker types. -/
def Ev.isTerminal {π : Type} : Ev π → Bool
  | .complete _ => true
  | .error _ => true
  | _ => false

def Ev.isComplete {π : Type} : Ev π → Bool
  | .complete _ => true
  | _ => false

def Ev.isError {π : Type} : Ev π → Bool
  | .error _ => true
  | _ => false

/-- Substring test on strings (used for "message contains ... " claims). -/
def strContains (hay needle : String) : Bool :=
  decide (needle.data <:+: hay.data)

/-- Outcome of one `run_agent_streamed` call as observed by a caller:
a normal return carries `final_output` (which may be `None`); the call may
instead raise `TimeoutError`, an input/output guardrail tripwire, or any
other exception. -/
inductive AgentOutcome (α : Type) where
  | ok (v : Option α)
  | timeout
  | guardIn
  | guardOut
  | exc (msg : String)

/-! ## Research Pipeline (backend/app/services/company_research.py) -/

structure SearchQuery where
  query : String
  reason : String
deriving DecidableEq, Repr

structure SearchPlan where
  searches : List SearchQuery
deriving DecidableEq, Repr

/-- Opaque stand-in for the pydantic `CompanySummary` (`model_dump()` is
injective on it, so the `complete` payload is modelled by the value itself). -/
structure CompanySummary where
  payload : String
deriving DecidableEq, Repr

/-- backend/app/agents/guardrails/exceptions.py -/
def SAFE_INJECTION_MESSAGE : String :=
  "Unable to process this request. Please provide a valid company name and role."

def SAFE_LEAKAGE_MESSAGE : String :=
  "Research completed but results could not be displayed. Please try again."

/-- An exception crossing a pipeline stage: guardrail tripwires, timeouts, and
generic exceptions carrying `str(e)`. -/
inductive PipeExc where
  | guardIn
  | guardOut
  | timeout
  | generic (msg : String)
deriving DecidableEq, Repr

/-- `_plan_searches`: run the planner; a `None` output raises
`RuntimeError(...)`, other exceptions propagate. -/
def plan_searches (o : AgentOutcome SearchPlan) : Except PipeExc SearchPlan :=
  match o with
  | .ok (some p) => .ok p
  | .ok none => .error (.generic
      "Search planning returned no result — the agent may have been cancelled")
  | .timeout => .error .timeout
  | .guardIn => .error .guardIn
  | .guardOut => .error .guardOut
  | .exc m => .error (.generic m)

/-- `_run_single_search`: returns `(reason, result_or_none, status)`;
`TimeoutError` becomes `timed_out`, guardrail tripwires re-raise, any other
exception becomes `failed`. -/
def run_single_search (item : SearchQuery) (o : AgentOutcome String) :
    Except PipeExc (String × Option String × String) :=
  match o with
  | .ok none => .ok (item.reason, none, "failed")
  | .ok (some s) => .ok (item.reason, some s, "success")
  | .timeout => .ok (item.reason, none, "timed_out")
  | .guardIn => .error .guardIn
  | .guardOut => .error .guardOut
  | .exc _ => .ok (item.reason, none, "failed")

/-- `_summarize_results`: run the summarizer; `None` raises `RuntimeError`. -/
def summarize_results (o : AgentOutcome CompanySummary) : Except PipeExc CompanySummary :=
  match o with
  | .ok (some s) => .ok s
  | .ok none => .error (.generic
      "Research summarization returned no result — the agent may have been cancelled")
  | .timeout => .error .timeout
  | .guardIn => .error .guardIn
  | .guardOut => .error .guardOut
  | .exc m => .error (.generic m)

/-- `_execute_searches`, iterated over the per-entry results in completion
order (`asyncio.as_completed`).  Yields status events (`Sum.inl`) and
successful result strings (`Sum.inr`); an exception raised by an entry
(guardrail tripwire) aborts the iteration and propagates. -/
def execute_searches_go (total : Nat) :
    List (SearchQuery × AgentOutcome String) → Nat →
      List (Ev CompanySummary ⊕ String) × Option PipeExc
  | [], _ => ([], none)
  | (item, o) :: rest, completed =>
    match run_single_search item o with
    | .error e => ([], some e)
    | .ok (reason, result, status) =>
      let c := completed + 1
      let msg :=
        if status = "success" then s!"Completed ({c}/{total}): {reason}"
        else if status = "timed_out" then s!"Timed out ({c}/{total}): {reason}, continuing..."
        else s!"Failed ({c}/{total}): {reason}, continuing..."
      let here : List (Ev CompanySummary ⊕ String) :=
        Sum.inl (Ev.status msg) ::
          (match result with
           | some r => if status = "success" then [Sum.inr r] else []
           | none => [])
      let rec_result := execute_searches_go total rest c
      (here ++ rec_result.1, rec_result.2)

/-- The outcome environment of one research run: results of the awaited agent
calls.  `searchRun` lists each plan entry with its outcome, in completion
order (a permutation of the plan's entries; theorems state that coherence
explicitly where they rely on it). -/
structure ResearchEnv where
  planOutcome : AgentOutcome SearchPlan
  searchRun : List (SearchQuery × AgentOutcome String)
  summaryOutcome : AgentOutcome CompanySummary

/-- The terminal `error` event produced by the exception handlers at the
bottom of `research_company_stream`. -/
def researchExcEvent : PipeExc → Ev CompanySummary
  | .guardIn => .error SAFE_INJECTION_MESSAGE
  | .guardOut => .error SAFE_LEAKAGE_MESSAGE
  | .timeout => .error "Research timed out. Please try again."
  | .generic m => .error s!"Research failed: {m}"

/-- The `isinstance(item, dict)` arm of the consuming loop: the yielded
events among the items produced by `_execute_searches`. -/
def inlEvents (l : List (Ev CompanySummary ⊕ String)) : List (Ev CompanySummary) :=
  l.filterMap (fun x => match x with
    | .inl e => some e
    | .inr _ => none)

/-- The `else` arm of the consuming loop: the successful search results
accumulated into `search_results`. -/
def inrResults (l : List (Ev CompanySummary ⊕ String)) : List String :=
  l.filterMap (fun x => match x with
    | .inr s => some s
    | .inl _ => none)

/-- `research_company_stream`: the full event sequence of a research run. -/
def research_company_stream (env : ResearchEnv) : List (Ev CompanySummary) :=
  let ev0 : Ev CompanySummary := .status "Planning research strategy..."
  match plan_searches env.planOutcome with
  | .error e => [ev0, researchExcEvent e]
  | .ok plan =>
    let ev1 : Ev CompanySummary :=
      .status s!"Found {plan.searches.length} areas to research"
    let run := execute_searches_go plan.searches.length env.searchRun 0
    let evs := inlEvents run.1
    let results := inrResults run.1
    match run.2 with
    | some e => [ev0, ev1] ++ evs ++ [researchExcEvent e]
    | none =>
      if results.isEmpty then
        [ev0, ev1] ++ evs ++ [Ev.error "All searches failed. Please try again."]
      else
        match summarize_results env.summaryOutcome with
        | .error e => [ev0, ev1] ++ evs ++ [Ev.status "Analyzing findings...", researchExcEvent e]
        | .ok summary =>
          [ev0, ev1] ++ evs ++ [Ev.status "Analyzing findings...", Ev.complete summary]

/-! ### Research-pipeline lemmas -/

theorem mem_inlEvents {l : List (Ev CompanySummary ⊕ String)} {e : Ev CompanySummary}
    (h : e ∈ inlEvents l) : Sum.inl e ∈ l := by
  simp only [inlEvents, List.mem_filterMap] at h
  obtain ⟨x, hx, hfx⟩ := h
  cases x with
  | inl y =>
    simp only [Option.some.injEq] at hfx
    rw [hfx] at hx
    exact hx
  | inr s => simp at hfx

/-- Every event item produced inside the search fan-out is a `status` event
(results are returned separately, never as events). -/
theorem execute_searches_go_inl_status {total : Nat} :
    ∀ (run : List (SearchQuery × AgentOutcome String)) (c : Nat) (e : Ev CompanySummary),
      Sum.inl e ∈ (execute_searches_go total run c).1 → ∃ m, e = Ev.status m := by
  intro run
  induction run with
  | nil =>
    intro c e h
    simp [execute_searches_go] at h
  | cons qo rest ih =>
    intro c e h
    obtain ⟨item, o⟩ := qo
    simp only [execute_searches_go] at h
    cases hr : run_single_search item o with
    | error ex =>
      rw [hr] at h
      simp at h
    | ok t =>
      rw [hr] at h
      obtain ⟨reason, result, status⟩ := t
      simp only [List.cons_append, List.mem_cons, List.mem_append] at h
      rcases h with h | h | h
      · exact ⟨_, Sum.inl_injective h⟩
      · exfalso
        cases result with
        | some r =>
          by_cases hs : status = "success" <;> simp [hs] at h
        | none => simp at h
      · exact ih c.succ e h

theorem inrResults_append (a b : List (Ev CompanySummary ⊕ String)) :
    inrResults (a ++ b) = inrResults a ++ inrResults b := by
  simp [inrResults, List.filterMap_append]

/-- If no entry trips a guardrail and no entry yields a successful result,
the fan-out finishes normally with an empty `search_results` accumulator. -/
theorem execute_searches_go_all_failed {total : Nat} :
    ∀ (run : List (SearchQuery × AgentOutcome String)) (c : Nat),
      (∀ qo ∈ run, qo.2 ≠ AgentOutcome.guardIn ∧ qo.2 ≠ AgentOutcome.guardOut) →
      (∀ qo ∈ run, ∀ s, qo.2 ≠ AgentOutcome.ok (some s)) →
      (execute_searches_go total run c).2 = none ∧
      inrResults (execute_searches_go total run c).1 = [] := by
  intro run
  induction run with
  | nil =>
    intro c _ _
    simp [execute_searches_go, inrResults]
  | cons qo rest ih =>
    intro c hg hs
    obtain ⟨item, o⟩ := qo
    have hg0 := hg (item, o) (List.mem_cons_self _ _)
    have hs0 := hs (item, o) (List.mem_cons_self _ _)
    have ihrest := ih c.succ
      (fun q hq => hg q (List.mem_cons_of_mem _ hq))
      (fun q hq => hs q (List.mem_cons_of_mem _ hq))
    cases o with
    | ok v =>
      cases v with
      | some s => exact absurd rfl (hs0 s)
      | none =>
        simp only [execute_searches_go, run_single_search]
        constructor
        · exact ihrest.1
        · rw [inrResults_append]
          simp only [ihrest.2]
          simp [inrResults]
    | timeout =>
      simp only [execute_searches_go, run_single_search]
      refine ⟨ihrest.1, ?_⟩
      rw [inrResults_append]
      simp only [ihrest.2]
      simp [inrResults]
    | guardIn => exact absurd rfl hg0.1
    | guardOut => exact absurd rfl hg0.2
    | exc m =>
      simp only [execute_searches_go, run_single_search]
      refine ⟨ihrest.1, ?_⟩
      rw [inrResults_append]
      simp only [ihrest.2]
      simp [inrResults]

/-- C5: if zero entries of the search plan produce a successful search result
(in particular when the plan is empty), and no entry trips a guardrail, the
research pipeline stops before summarization (the emitted events do not depend
on the summarizer outcome), and emits a terminal `error` whose message
contains "failed" — and no `complete` event. -/
theorem claim_C5 (env : ResearchEnv) (plan : SearchPlan)
    (hplan : plan_searches env.planOutcome = .ok plan)
    (hperm : List.Perm (env.searchRun.map Prod.fst) plan.searches)
    (hguard : ∀ qo ∈ env.searchRun,
      qo.2 ≠ AgentOutcome.guardIn ∧ qo.2 ≠ AgentOutcome.guardOut)
    (hsucc : ∀ qo ∈ env.searchRun, ∀ s, qo.2 ≠ AgentOutcome.ok (some s)) :
    (∃ evs, research_company_stream env =
        evs ++ [Ev.error "All searches failed. Please try again."]) ∧
    strContains "All searches failed. Please try again." "failed" = true ∧
    (∀ e ∈ research_company_stream env, e.isComplete = false) ∧
    (∀ o : AgentOutcome CompanySummary,
      research_company_stream ⟨env.planOutcome, env.searchRun, o⟩ =
        research_company_stream env) := by
  have hrun := @execute_searches_go_all_failed plan.searches.length
    env.searchRun 0 hguard hsucc
  have key : ∀ o : AgentOutcome CompanySummary,
      research_company_stream ⟨env.planOutcome, env.searchRun, o⟩ =
        [Ev.status "Planning research strategy...",
         Ev.status s!"Found {plan.searches.length} areas to research"] ++
        inlEvents (execute_searches_go plan.searches.length env.searchRun 0).1 ++
        [Ev.error "All searches failed. Please try again."] := by
    intro o
    simp only [research_company_stream, hplan]
    rw [hrun.1]
    simp only [hrun.2, List.isEmpty_nil]
    simp [List.append_assoc]
  have henv : research_company_stream env =
      [Ev.status "Planning research strategy...",
       Ev.status s!"Found {plan.searches.length} areas to research"] ++
      inlEvents (execute_searches_go plan.searches.length env.searchRun 0).1 ++
      [Ev.error "All searches failed. Please try again."] := by
    have := key env.summaryOutcome
    rwa [show (⟨env.planOutcome, env.searchRun, env.summaryOutcome⟩ : ResearchEnv) = env
      from rfl] at this
  refine ⟨⟨_, henv⟩, by decide, ?_, ?_⟩
  · intro e he
    rw [henv] at he
    simp only [List.append_assoc, List.mem_append, List.mem_cons,
      List.mem_singleton, List.not_mem_nil] at he
    rcases he with h | h | h
    · rcases h with h | h
      · rw [h]; rfl
      · rcases h with h | h
        · rw [h]; rfl
        · exact h.elim
    · obtain ⟨m, hm⟩ := execute_searches_go_inl_status env.searchRun 0 e (mem_inlEvents h)
      rw [hm]; rfl
    · rcases h with h | h
      · rw [h]; rfl
      · exact h.elim
  · intro o
    rw [key o, henv]

theorem claim_C5_witness :
    (plan_searches (AgentOutcome.ok (some ⟨[]⟩)) = .ok ⟨[]⟩) ∧
    ((∃ evs, research_company_stream ⟨AgentOutcome.ok (some ⟨[]⟩), [], AgentOutcome.timeout⟩ =
        evs ++ [Ev.error "All searches failed. Please try again."]) ∧
      strContains "All searches failed. Please try again." "failed" = true ∧
      (∀ e ∈ research_company_stream ⟨AgentOutcome.ok (some ⟨[]⟩), [], AgentOutcome.timeout⟩,
        e.isComplete = false) ∧
      (∀ o : AgentOutcome CompanySummary,
        research_company_stream ⟨AgentOutcome.ok (some ⟨[]⟩), [], o⟩ =
          research_company_stream ⟨AgentOutcome.ok (some ⟨[]⟩), [], AgentOutcome.timeout⟩)) :=
  ⟨rfl, claim_C5 ⟨AgentOutcome.ok (some ⟨[]⟩), [], AgentOutcome.timeout⟩ ⟨[]⟩ rfl
    (List.Perm.refl _) (by intro qo h; simp at h) (by intro qo h; simp at h)⟩

/-! ## Drill Generation Pipeline (backend/app/services/drill_generation.py)

`Drill` and `DrillEvaluation` are pydantic schemas; only the fields the
orchestration observes are modelled (`title` for candidate events,
`selected_generator`/`selection_reasoning` for the selection status message);
the remaining schema fields are bundled opaquely into `payload`.  The
`reasoning`/`confidence_score` metadata of a candidate is never read by the
pipeline and is omitted. -/

inductive DrillType where
  | coding
  | debugging
  | system_design
deriving DecidableEq, Repr

/-- `DrillType(str, Enum).value` -/
def DrillType.value : DrillType → String
  | .coding => "coding"
  | .debugging => "debugging"
  | .system_design => "system_design"

structure Drill where
  title : String
  payload : String
deriving DecidableEq, Repr

structure DrillCandidate where
  drill : Drill
  generator_type : DrillType
deriving DecidableEq, Repr

structure DrillEvaluation where
  selected_drill : Drill
  selected_generator : DrillType
  selection_reasoning : String
deriving DecidableEq, Repr

/-- `ALL_GENERATORS`: agents in priority order, with drill type and
description (the agent objects themselves are collaborators). -/
def ALL_GENERATORS : List (DrillType × String) :=
  [(.coding, "coding challenge"),
   (.debugging, "debugging scenario"),
   (.system_design, "system design problem")]

/-- `HOW_MANY_GENERATORS` (backend/app/agents/drill/__init__.py). -/
def HOW_MANY_GENERATORS : Nat := 3

/-- Outcome of one generator's `Runner.run` under `asyncio.wait_for`. -/
inductive GenOutcome where
  | ok (c : DrillCandidate)
  | timeout
  | guardIn
  | guardOut
  | exc (msg : String)

/-- Outcome of the evaluator's `Runner.run` under `asyncio.wait_for`. -/
inductive EvalOutcome where
  | ok (ev : DrillEvaluation)
  | timeout
  | guardIn
  | guardOut
  | exc (msg : String)

/-- Errors raised out of `generate_drill`. -/
inductive DrillError where
  | valueError (msg : String)
  | timeout
  | guardIn
  | guardOut
  | exc (msg : String)
deriving DecidableEq, Repr

/-- `run_generator` of `generate_drill`: a successful run yields the candidate
with its `generator_type` overwritten to match the agent; `TimeoutError` and
generic exceptions yield `None`.  A guardrail tripwire is re-raised, but
`asyncio.gather(..., return_exceptions=True)` captures it as a result value,
and the subsequent `isinstance(r, DrillCandidate)` filter discards it — so at
this point every non-`ok` outcome simply contributes no candidate. -/
def run_generator (dt : DrillType) : GenOutcome → Option DrillCandidate
  | .ok c => some { c with generator_type := dt }
  | _ => none

/-- `candidates = [r for r in results if isinstance(r, DrillCandidate)]` for
the configured generator selection. -/
def drill_candidates (outcomes : DrillType → GenOutcome) : List DrillCandidate :=
  (ALL_GENERATORS.take HOW_MANY_GENERATORS).filterMap
    (fun g => run_generator g.1 (outcomes g.1))

/-- The tail of `generate_drill`: raise on zero candidates, return the sole
candidate's drill directly, otherwise run the evaluator once and return its
selected drill (exceptions of the evaluator call propagate).  The second
component counts evaluator invocations. -/
def select_drill (candidates : List DrillCandidate) (evalOutcome : EvalOutcome) :
    Except DrillError Drill × Nat :=
  match candidates with
  | [] => (.error (.valueError "All generators failed to produce candidates"), 0)
  | [c] => (.ok c.drill, 0)
  | _ :: _ :: _ =>
    match evalOutcome with
    | .ok ev => (.ok ev.selected_drill, 1)
    | .timeout => (.error .timeout, 1)
    | .guardIn => (.error .guardIn, 1)
    | .guardOut => (.error .guardOut, 1)
    | .exc m => (.error (.exc m), 1)

/-- `generate_drill` (non-streaming). -/
def generate_drill (outcomes : DrillType → GenOutcome) (evalOutcome : EvalOutcome) :
    Except DrillError Drill × Nat :=
  select_drill (drill_candidates outcomes) evalOutcome

/-- Python `str.capitalize()`: first character upper-cased, the rest
lower-cased. -/
def pyCapitalize (s : String) : String :=
  match s.data with
  | [] => ""
  | c :: rest => ⟨c.toUpper :: rest.map Char.toLower⟩

/-- `generate_drill_stream`'s fan-out consuming loop
(`for coro in asyncio.as_completed(tasks)`), over the generator results in
completion order: collects candidate/status events and the `candidates`
accumulator; a guardrail tripwire raised by `run_generator_with_status`
propagates and aborts the loop. -/
def drill_stream_fanout :
    List (DrillType × String × GenOutcome) →
      List (Ev Drill) × List DrillCandidate × Option PipeExc
  | [] => ([], [], none)
  | (dt, desc, o) :: rest =>
    match o with
    | .guardIn => ([], [], some .guardIn)
    | .guardOut => ([], [], some .guardOut)
    | .ok c0 =>
      let c : DrillCandidate := { c0 with generator_type := dt }
      let here : List (Ev Drill) :=
        [Ev.candidate c.generator_type.value c.drill.title,
         Ev.status s!"Generated {desc}: {c.drill.title}"]
      let r := drill_stream_fanout rest
      (here ++ r.1, c :: r.2.1, r.2.2)
    | .timeout =>
      let here : List (Ev Drill) :=
        [Ev.status ((pyCapitalize desc) ++ " timed out, continuing...")]
      let r := drill_stream_fanout rest
      (here ++ r.1, r.2.1, r.2.2)
    | .exc _ =>
      let here : List (Ev Drill) :=
        [Ev.status ((pyCapitalize desc) ++ " failed, continuing...")]
      let r := drill_stream_fanout rest
      (here ++ r.1, r.2.1, r.2.2)

/-- The terminal `error` event produced by the handlers at the bottom of
`generate_drill_stream`. -/
def drillExcEvent : PipeExc → Ev Drill
  | .guardIn => .error SAFE_INJECTION_MESSAGE
  | .guardOut => .error SAFE_LEAKAGE_MESSAGE
  | .timeout => .error "Drill generation timed out. Please try again."
  | .generic m => .error s!"Drill generation failed: {m}"

/-- `generate_drill_stream`: full event sequence plus the number of evaluator
invocations.  `completed` lists the generator tasks with their agent's drill
type and description, in completion order. -/
def generate_drill_stream (completed : List (DrillType × String × GenOutcome))
    (evalOutcome : EvalOutcome) : List (Ev Drill) × Nat :=
  let ev0 : Ev Drill := .status "Starting drill generation..."
  let generators := ALL_GENERATORS.take HOW_MANY_GENERATORS
  let ev1 : Ev Drill :=
    .status s!"Generating {generators.length} drill candidates in parallel..."
  let r := drill_stream_fanout completed
  match r.2.2 with
  | some e => ([ev0, ev1] ++ r.1 ++ [drillExcEvent e], 0)
  | none =>
    match r.2.1 with
    | [] =>
      ([ev0, ev1] ++ r.1 ++ [Ev.error "All generators failed. Please try again."], 0)
    | [c] =>
      ([ev0, ev1] ++ r.1 ++
        [Ev.status "Only one candidate generated, using it directly.",
         Ev.complete c.drill], 0)
    | cs =>
      let evStat : Ev Drill := .status s!"Evaluating {cs.length} candidates..."
      match evalOutcome with
      | .ok ev =>
        ([ev0, ev1] ++ r.1 ++
          [evStat,
           Ev.status ("Selected: " ++ ev.selected_generator.value ++ " - " ++
             (ev.selection_reasoning.take 100) ++ "..."),
           Ev.complete ev.selected_drill], 1)
      | .timeout =>
        ([ev0, ev1] ++ r.1 ++
          [evStat, Ev.error "Drill generation timed out. Please try again."], 1)
      | .guardIn => ([ev0, ev1] ++ r.1 ++ [evStat, Ev.error SAFE_INJECTION_MESSAGE], 1)
      | .guardOut => ([ev0, ev1] ++ r.1 ++ [evStat, Ev.error SAFE_LEAKAGE_MESSAGE], 1)
      | .exc m =>
        ([ev0, ev1] ++ r.1 ++ [evStat, Ev.error s!"Drill generation failed: {m}"], 1)

/-! ### Drill-pipeline lemmas -/

theorem run_generator_none {dt : DrillType} {o : GenOutcome}
    (h : ∀ c, o ≠ GenOutcome.ok c) : run_generator dt o = none := by
  cases o with
  | ok c => exact absurd rfl (h c)
  | timeout => rfl
  | guardIn => rfl
  | guardOut => rfl
  | exc m => rfl

/-- If no entry of the fan-out trips a guardrail, the loop runs to the end. -/
theorem drill_fanout_exc_none :
    ∀ (l : List (DrillType × String × GenOutcome)),
      (∀ e ∈ l, e.2.2 ≠ GenOutcome.guardIn ∧ e.2.2 ≠ GenOutcome.guardOut) →
      (drill_stream_fanout l).2.2 = none := by
  intro l
  induction l with
  | nil => intro _; rfl
  | cons e rest ih =>
    intro h
    obtain ⟨dt, desc, o⟩ := e
    have h0 := h (dt, desc, o) (List.mem_cons_self _ _)
    have hrest := ih (fun x hx => h x (List.mem_cons_of_mem _ hx))
    cases o with
    | ok c => simpa [drill_stream_fanout] using hrest
    | timeout => simpa [drill_stream_fanout] using hrest
    | guardIn => exact absurd rfl h0.1
    | guardOut => exact absurd rfl h0.2
    | exc m => simpa [drill_stream_fanout] using hrest

/-- The fan-out is compositional as long as its first part does not raise. -/
theorem drill_fanout_append :
    ∀ (a b : List (DrillType × String × GenOutcome)),
      (drill_stream_fanout a).2.2 = none →
      drill_stream_fanout (a ++ b) =
        ((drill_stream_fanout a).1 ++ (drill_stream_fanout b).1,
         (drill_stream_fanout a).2.1 ++ (drill_stream_fanout b).2.1,
         (drill_stream_fanout b).2.2) := by
  intro a
  induction a with
  | nil => intro b _; simp [drill_stream_fanout]
  | cons e rest ih =>
    intro b hexc
    obtain ⟨dt, desc, o⟩ := e
    cases o with
    | ok c =>
      simp only [drill_stream_fanout] at hexc
      simp only [List.cons_append, drill_stream_fanout, List.append_eq,
        ih b hexc, List.append_assoc]
    | timeout =>
      simp only [drill_stream_fanout] at hexc
      simp only [List.cons_append, drill_stream_fanout, List.append_eq,
        ih b hexc, List.append_assoc]
    | guardIn => simp [drill_stream_fanout] at hexc
    | guardOut => simp [drill_stream_fanout] at hexc
    | exc m =>
      simp only [drill_stream_fanout] at hexc
      simp only [List.cons_append, drill_stream_fanout, List.append_eq,
        ih b hexc, List.append_assoc]

/-- A fan-out with no successful generator and no tripwire collects no
candidates and does not raise. -/
theorem drill_fanout_no_ok :
    ∀ (l : List (DrillType × String × GenOutcome)),
      (∀ e ∈ l, (∀ c, e.2.2 ≠ GenOutcome.ok c) ∧
        e.2.2 ≠ GenOutcome.guardIn ∧ e.2.2 ≠ GenOutcome.guardOut) →
      (drill_stream_fanout l).2.1 = [] ∧ (drill_stream_fanout l).2.2 = none := by
  intro l
  induction l with
  | nil => intro _; exact ⟨rfl, rfl⟩
  | cons e rest ih =>
    intro h
    obtain ⟨dt, desc, o⟩ := e
    have h0 := h (dt, desc, o) (List.mem_cons_self _ _)
    have hrest := ih (fun x hx => h x (List.mem_cons_of_mem _ hx))
    cases o with
    | ok c => exact absurd rfl (h0.1 c)
    | timeout => simpa [drill_stream_fanout] using hrest
    | guardIn => exact absurd rfl h0.2.1
    | guardOut => exact absurd rfl h0.2.2
    | exc m => simpa [drill_stream_fanout] using hrest

/-- Every event yielded inside the generator fan-out is a `candidate` or
`status` event — never a terminal one. -/
theorem drill_fanout_nonterminal :
    ∀ (l : List (DrillType × String × GenOutcome)) (e : Ev Drill),
      e ∈ (drill_stream_fanout l).1 → e.isTerminal = false := by
  intro l
  induction l with
  | nil => intro e h; simp [drill_stream_fanout] at h
  | cons x rest ih =>
    intro e h
    obtain ⟨dt, desc, o⟩ := x
    cases o with
    | ok c =>
      simp only [drill_stream_fanout, List.cons_append, List.nil_append,
        List.mem_cons] at h
      rcases h with h | h | h
      · rw [h]; rfl
      · rw [h]; rfl
      · exact ih e h
    | timeout =>
      simp only [drill_stream_fanout, List.singleton_append, List.mem_cons] at h
      rcases h with h | h
      · rw [h]; rfl
      · exact ih e h
    | guardIn => simp [drill_stream_fanout] at h
    | guardOut => simp [drill_stream_fanout] at h
    | exc m =>
      simp only [drill_stream_fanout, List.singleton_append, List.mem_cons] at h
      rcases h with h | h
      · rw [h]; rfl
      · exact ih e h

/-- Two distinct members force length at least two. -/
theorem two_mem_le_length {α : Type} {l : List α} {a b : α}
    (ha : a ∈ l) (hb : b ∈ l) (hne : a ≠ b) : 2 ≤ l.length := by
  cases l with
  | nil => simp at ha
  | cons x rest =>
    cases rest with
    | nil =>
      simp only [List.mem_singleton] at ha hb
      exact absurd (ha.trans hb.symm) hne
    | cons y rest' => simp [Nat.succ_le_succ, Nat.le_add_left]

/-- Every drill type appears among the configured generators. -/
theorem mem_all_generators (dt : DrillType) :
    ∃ d, (dt, d) ∈ ALL_GENERATORS.take HOW_MANY_GENERATORS := by
  cases dt with
  | coding => exact ⟨"coding challenge", by decide⟩
  | debugging => exact ⟨"debugging scenario", by decide⟩
  | system_design => exact ⟨"system design problem", by decide⟩

theorem mem_drill_candidates {outcomes : DrillType → GenOutcome} {dt : DrillType}
    {c : DrillCandidate} (h : outcomes dt = GenOutcome.ok c) :
    { c with generator_type := dt } ∈ drill_candidates outcomes := by
  obtain ⟨d, hd⟩ := mem_all_generators dt
  refine List.mem_filterMap.mpr ⟨(dt, d), hd, ?_⟩
  simp [run_generator, h]

/-- Evaluating the fan-out on a successful head entry. -/
theorem drill_fanout_cons_ok_snd (dt : DrillType) (d : String) (c0 : DrillCandidate)
    (rest : List (DrillType × String × GenOutcome)) :
    (drill_stream_fanout ((dt, d, GenOutcome.ok c0) :: rest)).2 =
      ({ c0 with generator_type := dt } :: (drill_stream_fanout rest).2.1,
       (drill_stream_fanout rest).2.2) := rfl

/-- With no tripwire and at least two collected candidates,
`generate_drill_stream` invokes the evaluator exactly once, and on evaluator
success the terminal event carries the evaluator's selected drill. -/
theorem generate_drill_stream_multi {completed : List (DrillType × String × GenOutcome)}
    (hexc : (drill_stream_fanout completed).2.2 = none)
    (hlen : 2 ≤ (drill_stream_fanout completed).2.1.length) (eo : EvalOutcome) :
    (generate_drill_stream completed eo).2 = 1 ∧
    (∀ ev, eo = EvalOutcome.ok ev →
      ∃ evs, (generate_drill_stream completed eo).1 =
        evs ++ [Ev.complete ev.selected_drill]) := by
  rcases h21 : (drill_stream_fanout completed).2.1 with _ | ⟨c1, _ | ⟨c2, cs⟩⟩
  · rw [h21] at hlen; simp at hlen
  · rw [h21] at hlen; simp at hlen
  · cases eo with
    | ok ev =>
      refine ⟨?_, ?_⟩
      · simp [generate_drill_stream, hexc, h21]
      · intro ev' hev
        cases hev
        refine ⟨[Ev.status "Starting drill generation...",
            Ev.status s!"Generating {(ALL_GENERATORS.take HOW_MANY_GENERATORS).length} drill candidates in parallel..."] ++
            (drill_stream_fanout completed).1 ++
            [Ev.status s!"Evaluating {(c1 :: c2 :: cs).length} candidates...",
             Ev.status ("Selected: " ++ ev.selected_generator.value ++ " - " ++
               (ev.selection_reasoning.take 100) ++ "...")], ?_⟩
        simp [generate_drill_stream, hexc, h21, List.append_assoc]
    | timeout =>
      refine ⟨?_, fun ev' hev => by cases hev⟩
      simp [generate_drill_stream, hexc, h21]
    | guardIn =>
      refine ⟨?_, fun ev' hev => by cases hev⟩
      simp [generate_drill_stream, hexc, h21]
    | guardOut =>
      refine ⟨?_, fun ev' hev => by cases hev⟩
      simp [generate_drill_stream, hexc, h21]
    | exc m =>
      refine ⟨?_, fun ev' hev => by cases hev⟩
      simp [generate_drill_stream, hexc, h21]

/-- With at least two candidates, `select_drill` runs the evaluator exactly
once and, when the evaluator succeeds, returns its selected drill. -/
theorem select_drill_multi {cands : List DrillCandidate} (h : 2 ≤ cands.length)
    (eo : EvalOutcome) :
    (select_drill cands eo).2 = 1 ∧
    (∀ ev, eo = EvalOutcome.ok ev → select_drill cands eo = (.ok ev.selected_drill, 1)) := by
  match cands with
  | [] => simp at h
  | [c] => simp at h
  | c1 :: c2 :: rest =>
    cases eo with
    | ok ev => exact ⟨rfl, fun ev' hev => by cases hev; rfl⟩
    | timeout => exact ⟨rfl, fun ev' hev => by cases hev⟩
    | guardIn => exact ⟨rfl, fun ev' hev => by cases hev⟩
    | guardOut => exact ⟨rfl, fun ev' hev => by cases hev⟩
    | exc m => exact ⟨rfl, fun ev' hev => by cases hev⟩

/-- C4: whenever exactly one generator produces a successful candidate, drill
generation (both `generate_drill` and `generate_drill_stream`) never invokes
the evaluator, and the final output is that candidate's drill unchanged. -/
theorem claim_C4 :
    (∀ (outcomes : DrillType → GenOutcome) (eo : EvalOutcome) (dt0 : DrillType)
       (c0 : DrillCandidate),
      outcomes dt0 = GenOutcome.ok c0 →
      (∀ dt, dt ≠ dt0 → ∀ c, outcomes dt ≠ GenOutcome.ok c) →
      generate_drill outcomes eo = (.ok c0.drill, 0)) ∧
    (∀ (pre post : List (DrillType × String × GenOutcome)) (dt0 : DrillType)
       (d0 : String) (c0 : DrillCandidate) (eo : EvalOutcome),
      (∀ e ∈ pre ++ post, (∀ c, e.2.2 ≠ GenOutcome.ok c) ∧
        e.2.2 ≠ GenOutcome.guardIn ∧ e.2.2 ≠ GenOutcome.guardOut) →
      (∃ evs, (generate_drill_stream (pre ++ (dt0, d0, GenOutcome.ok c0) :: post) eo).1 =
          evs ++ [Ev.complete c0.drill]) ∧
      (generate_drill_stream (pre ++ (dt0, d0, GenOutcome.ok c0) :: post) eo).2 = 0) := by
  constructor
  · intro outcomes eo dt0 c0 h0 hothers
    have hc : drill_candidates outcomes = [{ c0 with generator_type := dt0 }] := by
      cases dt0 with
      | coding =>
        have r0 : run_generator DrillType.coding (outcomes .coding) =
            some { c0 with generator_type := DrillType.coding } := by
          rw [h0]; rfl
        have r2 : run_generator DrillType.debugging (outcomes .debugging) = none :=
          run_generator_none (hothers .debugging (by decide))
        have r3 : run_generator DrillType.system_design (outcomes .system_design) = none :=
          run_generator_none (hothers .system_design (by decide))
        simp [drill_candidates, ALL_GENERATORS, HOW_MANY_GENERATORS, r0, r2, r3]
      | debugging =>
        have r0 : run_generator DrillType.debugging (outcomes .debugging) =
            some { c0 with generator_type := DrillType.debugging } := by
          rw [h0]; rfl
        have r1 : run_generator DrillType.coding (outcomes .coding) = none :=
          run_generator_none (hothers .coding (by decide))
        have r3 : run_generator DrillType.system_design (outcomes .system_design) = none :=
          run_generator_none (hothers .system_design (by decide))
        simp [drill_candidates, ALL_GENERATORS, HOW_MANY_GENERATORS, r0, r1, r3]
      | system_design =>
        have r0 : run_generator DrillType.system_design (outcomes .system_design) =
            some { c0 with generator_type := DrillType.system_design } := by
          rw [h0]; rfl
        have r1 : run_generator DrillType.coding (outcomes .coding) = none :=
          run_generator_none (hothers .coding (by decide))
        have r2 : run_generator DrillType.debugging (outcomes .debugging) = none :=
          run_generator_none (hothers .debugging (by decide))
        simp [drill_candidates, ALL_GENERATORS, HOW_MANY_GENERATORS, r0, r1, r2]
    simp [generate_drill, hc, select_drill]
  · intro pre post dt0 d0 c0 eo h
    have hpre := drill_fanout_no_ok pre
      (fun x hx => h x (List.mem_append_left _ hx))
    have hpost := drill_fanout_no_ok post
      (fun x hx => h x (List.mem_append_right _ hx))
    have happ := drill_fanout_append pre ((dt0, d0, GenOutcome.ok c0) :: post) hpre.2
    have h2 : (drill_stream_fanout (pre ++ (dt0, d0, GenOutcome.ok c0) :: post)).2 =
        ([{ c0 with generator_type := dt0 }], none) := by
      rw [happ]
      simp only [drill_fanout_cons_ok_snd, hpre.1, hpost.1, hpost.2, List.nil_append]
    have h21 : (drill_stream_fanout (pre ++ (dt0, d0, GenOutcome.ok c0) :: post)).2.1 =
        [{ c0 with generator_type := dt0 }] := by rw [h2]
    have h22 : (drill_stream_fanout (pre ++ (dt0, d0, GenOutcome.ok c0) :: post)).2.2 =
        none := by rw [h2]
    constructor
    · refine ⟨[Ev.status "Starting drill generation...",
          Ev.status s!"Generating {(ALL_GENERATORS.take HOW_MANY_GENERATORS).length} drill candidates in parallel..."] ++
          (drill_stream_fanout (pre ++ (dt0, d0, GenOutcome.ok c0) :: post)).1 ++
          [Ev.status "Only one candidate generated, using it directly."], ?_⟩
      simp [generate_drill_stream, h21, h22, List.append_assoc]
    · simp [generate_drill_stream, h21, h22]

theorem claim_C4_witness :
    generate_drill
        (fun dt => match dt with
          | .coding => GenOutcome.ok ⟨⟨"T", "P"⟩, .coding⟩
          | _ => GenOutcome.timeout)
        EvalOutcome.timeout = (.ok ⟨"T", "P"⟩, 0) ∧
    ((∃ evs, (generate_drill_stream
          [(.coding, "coding challenge", GenOutcome.ok ⟨⟨"T", "P"⟩, .coding⟩)]
          EvalOutcome.timeout).1 = evs ++ [Ev.complete ⟨"T", "P"⟩]) ∧
      (generate_drill_stream
          [(.coding, "coding challenge", GenOutcome.ok ⟨⟨"T", "P"⟩, .coding⟩)]
          EvalOutcome.timeout).2 = 0) :=
  ⟨claim_C4.1 _ EvalOutcome.timeout .coding ⟨⟨"T", "P"⟩, .coding⟩ rfl
      (by
        intro dt hdt c
        cases dt with
        | coding => exact absurd rfl hdt
        | debugging => simp
        | system_design => simp),
    claim_C4.2 [] [] .coding "coding challenge" ⟨⟨"T", "P"⟩, .coding⟩
      EvalOutcome.timeout (by intro e he; simp at he)⟩

/-- C6: with zero successful candidates drill generation raises/streams a
terminal error whose message contains "failed" (and never calls the
evaluator); with two or more successful candidates it invokes the evaluator
exactly once and, when the evaluator returns, the terminal output is the
evaluator's selected drill. -/
theorem claim_C6 :
    (∀ (outcomes : DrillType → GenOutcome) (eo : EvalOutcome),
      (∀ dt c, outcomes dt ≠ GenOutcome.ok c) →
      generate_drill outcomes eo =
        (.error (.valueError "All generators failed to produce candidates"), 0) ∧
      strContains "All generators failed to produce candidates" "failed" = true) ∧
    (∀ (completed : List (DrillType × String × GenOutcome)) (eo : EvalOutcome),
      (∀ e ∈ completed, (∀ c, e.2.2 ≠ GenOutcome.ok c) ∧
        e.2.2 ≠ GenOutcome.guardIn ∧ e.2.2 ≠ GenOutcome.guardOut) →
      (∃ evs, (generate_drill_stream completed eo).1 =
          evs ++ [Ev.error "All generators failed. Please try again."]) ∧
      (generate_drill_stream completed eo).2 = 0 ∧
      strContains "All generators failed. Please try again." "failed" = true) ∧
    (∀ (outcomes : DrillType → GenOutcome) (dt1 dt2 : DrillType)
       (c1 c2 : DrillCandidate),
      dt1 ≠ dt2 → outcomes dt1 = GenOutcome.ok c1 → outcomes dt2 = GenOutcome.ok c2 →
      (∀ eo, (generate_drill outcomes eo).2 = 1) ∧
      (∀ ev, generate_drill outcomes (EvalOutcome.ok ev) = (.ok ev.selected_drill, 1))) ∧
    (∀ (l1 l2 l3 : List (DrillType × String × GenOutcome)) (dt1 dt2 : DrillType)
       (d1 d2 : String) (c1 c2 : DrillCandidate),
      (∀ e ∈ l1 ++ l2 ++ l3,
        e.2.2 ≠ GenOutcome.guardIn ∧ e.2.2 ≠ GenOutcome.guardOut) →
      (∀ eo, (generate_drill_stream
          (l1 ++ (dt1, d1, GenOutcome.ok c1) :: (l2 ++ (dt2, d2, GenOutcome.ok c2) :: l3))
          eo).2 = 1) ∧
      (∀ ev, ∃ evs, (generate_drill_stream
          (l1 ++ (dt1, d1, GenOutcome.ok c1) :: (l2 ++ (dt2, d2, GenOutcome.ok c2) :: l3))
          (EvalOutcome.ok ev)).1 = evs ++ [Ev.complete ev.selected_drill])) := by
  refine ⟨?_, ?_, ?_, ?_⟩
  · intro outcomes eo hno
    have r1 : run_generator DrillType.coding (outcomes .coding) = none :=
      run_generator_none (hno .coding)
    have r2 : run_generator DrillType.debugging (outcomes .debugging) = none :=
      run_generator_none (hno .debugging)
    have r3 : run_generator DrillType.system_design (outcomes .system_design) = none :=
      run_generator_none (hno .system_design)
    refine ⟨?_, by decide⟩
    simp [generate_drill, drill_candidates, ALL_GENERATORS, HOW_MANY_GENERATORS,
      r1, r2, r3, select_drill]
  · intro completed eo h
    have hf := drill_fanout_no_ok completed h
    refine ⟨⟨[Ev.status "Starting drill generation...",
        Ev.status s!"Generating {(ALL_GENERATORS.take HOW_MANY_GENERATORS).length} drill candidates in parallel..."] ++
        (drill_stream_fanout completed).1, ?_⟩, ?_, by decide⟩
    · simp [generate_drill_stream, hf.1, hf.2, List.append_assoc]
    · simp [generate_drill_stream, hf.1, hf.2]
  · intro outcomes dt1 dt2 c1 c2 hne h1 h2
    have hm1 := mem_drill_candidates h1
    have hm2 := mem_drill_candidates h2
    have hnec : ({ c1 with generator_type := dt1 } : DrillCandidate) ≠
        { c2 with generator_type := dt2 } := by
      intro hc
      exact hne (congrArg DrillCandidate.generator_type hc)
    have hlen := two_mem_le_length hm1 hm2 hnec
    refine ⟨fun eo => (select_drill_multi hlen eo).1,
      fun ev => (select_drill_multi hlen (EvalOutcome.ok ev)).2 ev rfl⟩
  · intro l1 l2 l3 dt1 dt2 d1 d2 c1 c2 h
    have hl1 := drill_fanout_exc_none l1
      (fun x hx => (h x (List.mem_append_left _ (List.mem_append_left _ hx))))
    have hl2 := drill_fanout_exc_none l2
      (fun x hx => (h x (List.mem_append_left _ (List.mem_append_right _ hx))))
    have hl3 := drill_fanout_exc_none l3
      (fun x hx => (h x (List.mem_append_right _ hx)))
    have happ1 := drill_fanout_append l1
      ((dt1, d1, GenOutcome.ok c1) :: (l2 ++ (dt2, d2, GenOutcome.ok c2) :: l3)) hl1
    have happ2 := drill_fanout_append l2 ((dt2, d2, GenOutcome.ok c2) :: l3) hl2
    have h2nd : (drill_stream_fanout
        (l1 ++ (dt1, d1, GenOutcome.ok c1) :: (l2 ++ (dt2, d2, GenOutcome.ok c2) :: l3))).2 =
        ((drill_stream_fanout l1).2.1 ++ { c1 with generator_type := dt1 } ::
          ((drill_stream_fanout l2).2.1 ++ { c2 with generator_type := dt2 } ::
            (drill_stream_fanout l3).2.1),
         (drill_stream_fanout l3).2.2) := by
      rw [happ1]
      simp only [drill_fanout_cons_ok_snd, happ2, List.cons_append]
    have hexc : (drill_stream_fanout
        (l1 ++ (dt1, d1, GenOutcome.ok c1) :: (l2 ++ (dt2, d2, GenOutcome.ok c2) :: l3))).2.2 =
        none := by rw [h2nd]; exact hl3
    have hlen : 2 ≤ (drill_stream_fanout
        (l1 ++ (dt1, d1, GenOutcome.ok c1) :: (l2 ++ (dt2, d2, GenOutcome.ok c2) :: l3))).2.1.length := by
      have : (drill_stream_fanout
          (l1 ++ (dt1, d1, GenOutcome.ok c1) :: (l2 ++ (dt2, d2, GenOutcome.ok c2) :: l3))).2.1 =
          (drill_stream_fanout l1).2.1 ++ { c1 with generator_type := dt1 } ::
            ((drill_stream_fanout l2).2.1 ++ { c2 with generator_type := dt2 } ::
              (drill_stream_fanout l3).2.1) := by rw [h2nd]
      rw [this]
      simp [List.length_append]
      omega
    exact ⟨fun eo => (generate_drill_stream_multi hexc hlen eo).1,
      fun ev => (generate_drill_stream_multi hexc hlen (EvalOutcome.ok ev)).2 ev rfl⟩

theorem claim_C6_witness :
    (generate_drill (fun _ => GenOutcome.timeout) EvalOutcome.timeout =
        (.error (.valueError "All generators failed to produce candidates"), 0) ∧
      strContains "All generators failed to produce candidates" "failed" = true) ∧
    ((∃ evs, (generate_drill_stream [(.coding, "coding challenge", GenOutcome.timeout)]
          EvalOutcome.timeout).1 =
        evs ++ [Ev.error "All generators failed. Please try again."]) ∧
      (generate_drill_stream [(.coding, "coding challenge", GenOutcome.timeout)]
          EvalOutcome.timeout).2 = 0 ∧
      strContains "All generators failed. Please try again." "failed" = true) ∧
    (∀ ev, generate_drill
        (fun dt => match dt with
          | .system_design => GenOutcome.timeout
          | _ => GenOutcome.ok ⟨⟨"T", "P"⟩, .coding⟩)
        (EvalOutcome.ok ev) = (.ok ev.selected_drill, 1)) ∧
    (∀ ev, ∃ evs, (generate_drill_stream
        [(.coding, "c", GenOutcome.ok ⟨⟨"T", "P"⟩, .coding⟩),
         (.debugging, "d", GenOutcome.ok ⟨⟨"U", "Q"⟩, .debugging⟩)]
        (EvalOutcome.ok ev)).1 = evs ++ [Ev.complete ev.selected_drill]) :=
  ⟨claim_C6.1 (fun _ => GenOutcome.timeout) EvalOutcome.timeout
      (by intro dt c; cases dt <;> simp),
    claim_C6.2.1 [(.coding, "coding challenge", GenOutcome.timeout)]
      EvalOutcome.timeout
      (by
        intro e he
        rw [List.mem_singleton] at he
        subst he
        exact ⟨fun c => by simp, by simp, by simp⟩),
    fun ev => (claim_C6.2.2.1
      (fun dt => match dt with
        | .system_design => GenOutcome.timeout
        | _ => GenOutcome.ok ⟨⟨"T", "P"⟩, .coding⟩)
      .coding .debugging ⟨⟨"T", "P"⟩, .coding⟩ ⟨⟨"T", "P"⟩, .coding⟩
      (by decide) rfl rfl).2 ev,
    fun ev => (claim_C6.2.2.2 [] [] [] .coding .debugging "c" "d"
      ⟨⟨"T", "P"⟩, .coding⟩ ⟨⟨"U", "Q"⟩, .debugging⟩
      (by intro e he; simp at he)).2 ev⟩

/-! ## Guardrail pattern engine (backend/app/agents/guardrails/patterns.py,
injection_detector.py, leakage_detector.py)

Text is a list of Unicode code points.  `re.IGNORECASE` over the all-ASCII
patterns is modelled by ASCII-lowercasing the text and writing the pattern
literals in lowercase.  Each regex is hand-compiled to a deterministic
matcher; alternations whose branches are not prefix-free are distributed over
their continuation so the determinization preserves the regex's acceptance,
and `.+` is compiled to an explicit split search. -/

def lcN (c : Nat) : Nat := if 65 ≤ c ∧ c ≤ 90 then c + 32 else c

def lowerCodes (s : List Nat) : List Nat := s.map lcN

def str2codes (s : String) : List Nat := s.data.map Char.toNat

def isDigitN (c : Nat) : Bool := 48 ≤ c && c ≤ 57
def isUpperN (c : Nat) : Bool := 65 ≤ c && c ≤ 90
def isLowerN (c : Nat) : Bool := 97 ≤ c && c ≤ 122
def isAlphaN (c : Nat) : Bool := isUpperN c || isLowerN c
def isAlnumN (c : Nat) : Bool := isAlphaN c || isDigitN c

/-- Python `\s` = space, tab, newline, carriage return, vertical tab, form feed. -/
def isWsN (c : Nat) : Bool := c = 32 || c = 9 || c = 10 || c = 13 || c = 11 || c = 12

/-- Python `\w` (ASCII fragment). -/
def isWordN (c : Nat) : Bool := isAlnumN c || c = 95

/-- A deterministic regex-fragment matcher: consume a prefix, return the rest. -/
def RMatch : Type := List Nat → Option (List Nat)

/-- Literal. -/
def pstr : List Nat → RMatch
  | [], cs => some cs
  | _ :: _, [] => none
  | k :: ks, c :: cs => if c = k then pstr ks cs else none

/-- Character class repeated at least `n` times, greedy (`{n,}`, `+`, `*`). -/
def pclass (f : Nat → Bool) (n : Nat) : RMatch := fun cs =>
  let t := cs.takeWhile f
  if n ≤ t.length then some (cs.drop t.length) else none

/-- Character class repeated exactly `n` times (`{n}`). -/
def pclassExact (f : Nat → Bool) (n : Nat) : RMatch := fun cs =>
  if n ≤ (cs.takeWhile f).length then some (cs.drop n) else none

/-- Sequencing. -/
def pseq (p q : RMatch) : RMatch := fun cs => (p cs).bind q

/-- Ordered alternation (first applicable branch). -/
def palt : List RMatch → RMatch
  | [], _ => none
  | p :: ps, cs => ((p cs).orElse (fun _ => palt ps cs))

/-- `(...)?`: try the group, fall back to consuming nothing. -/
def popt (p : RMatch) : RMatch := fun cs => some ((p cs).getD cs)

/-- Empty fragment (end of a pattern). -/
def pid : RMatch := fun cs => some cs

/-- `\s+` / `\s*`. -/
def pws1 : RMatch := pclass isWsN 1
def pws0 : RMatch := pclass isWsN 0

/-- `.+` followed by `rest`: consume one or more non-newline characters, then
match `rest`, trying every split (regex backtracking made explicit). -/
def pdotplus (rest : RMatch) : RMatch
  | [] => none
  | c :: cs => if c = 10 then none else ((rest cs).orElse (fun _ => pdotplus rest cs))

def pmatch (p : RMatch) (cs : List Nat) : Bool := (p cs).isSome

/-- `re.search`: try the fragment at every position. -/
def psearch (p : RMatch) : List Nat → Bool
  | [] => pmatch p []
  | c :: rest => pmatch p (c :: rest) || psearch p rest

/-- A whole pattern in head-literal normal form: an ordered alternation of
branches, each a literal head followed by a continuation. -/
def mkpat (branches : List (List Nat × RMatch)) : RMatch :=
  palt (branches.map (fun b => pseq (pstr b.1) b.2))

/-- Substring test over code lists. -/
def containsSub (hay sub : List Nat) : Bool := decide (sub <:+: hay)

/-- Word suffix `s?`. -/
def pOptS (word : String) : RMatch := pseq (pstr (str2codes word)) (popt (pstr (str2codes "s")))

/-! ### INJECTION_PATTERNS, in head-literal normal form.  The comment above
each entry quotes the source regex (compiled with `re.IGNORECASE`). -/

/-- `(instructions?|prompts?|rules?|guidelines?)` -/
def pInstrTargets : RMatch :=
  palt [pOptS "instruction", pOptS "prompt", pOptS "rule", pOptS "guideline"]

/-- `\s+(all\s+)?(previous|prior|above)\s+(instructions?|prompts?|rules?|guidelines?)`,
the shared tail of the four instruction-override patterns. -/
def pOverrideTail : RMatch :=
  pseq pws1 (pseq (popt (pseq (pstr (str2codes "all")) pws1))
    (pseq (palt [pstr (str2codes "previous"), pstr (str2codes "prior"),
      pstr (str2codes "above")]) (pseq pws1 pInstrTargets)))

/-- `(show|print|display|reveal|tell|share|output|give)` heads. -/
def REVEAL_VERBS : List String :=
  ["show", "print", "display", "reveal", "tell", "share", "output", "give"]

/-- `(prompt|instructions?|rules?|guidelines?)` -/
def pPromptTargets : RMatch :=
  palt [pstr (str2codes "prompt"), pOptS "instruction", pOptS "rule", pOptS "guideline"]

/-- `\s+(me\s+)?(your|the)\s+(system\s+)?(prompt|instructions?|rules?|guidelines?)` -/
def pShowPromptTail : RMatch :=
  pseq pws1 (pseq (popt (pseq (pstr (str2codes "me")) pws1))
    (pseq (palt [pstr (str2codes "your"), pstr (str2codes "the")])
      (pseq pws1 (pseq (popt (pseq (pstr (str2codes "system")) pws1)) pPromptTargets))))

/-- `(api\s*key|secret|token|password|credential)` -/
def pSecretTargets : RMatch :=
  palt [pseq (pstr (str2codes "api")) (pseq pws0 (pstr (str2codes "key"))),
    pstr (str2codes "secret"), pstr (str2codes "token"),
    pstr (str2codes "password"), pstr (str2codes "credential")]

/-- `\s+(me\s+)?(the\s+)?(api\s*key|secret|token|password|credential)` -/
def pShowSecretTail : RMatch :=
  pseq pws1 (pseq (popt (pseq (pstr (str2codes "me")) pws1))
    (pseq (popt (pseq (pstr (str2codes "the")) pws1)) pSecretTargets))

/-- `(in|from|inside)\s+(the\s+)?\.env`, with the three first literals
distributed over the shared tail (the branches are not prefix-free). -/
def pDotEnvAfter : RMatch :=
  let tail := pseq pws1 (pseq (popt (pseq (pstr (str2codes "the")) pws1))
    (pstr (str2codes ".env")))
  palt [pseq (pstr (str2codes "in")) tail, pseq (pstr (str2codes "from")) tail,
    pseq (pstr (str2codes "inside")) tail]

/-- `\s+(now\s+)?(a\s+)?(different|new|another)` -/
def pPersonaTail : RMatch :=
  pseq pws1 (pseq (popt (pseq (pstr (str2codes "now")) pws1))
    (pseq (popt (pseq (pstr (str2codes "a")) pws1))
      (palt [pstr (str2codes "different"), pstr (str2codes "new"),
        pstr (str2codes "another")])))

/-- The 26 entries of `INJECTION_PATTERNS`, each as its branch list. -/
def INJ_BRANCHES : List (List (List Nat × RMatch)) :=
  [ -- ignore\s+(all\s+)?(previous|prior|above)\s+(instructions?|prompts?|rules?|guidelines?)
    [(str2codes "ignore", pOverrideTail)],
    -- disregard\s+(all\s+)?(previous|prior|above)\s+(...)
    [(str2codes "disregard", pOverrideTail)],
    -- forget\s+(all\s+)?(previous|prior|above)\s+(...)
    [(str2codes "forget", pOverrideTail)],
    -- override\s+(all\s+)?(previous|prior|above)\s+(...)
    [(str2codes "override", pOverrideTail)],
    -- (show|print|display|reveal|tell|share|output|give)\s+(me\s+)?(your|the)\s+(system\s+)?(prompt|instructions?|rules?|guidelines?)
    REVEAL_VERBS.map (fun v => (str2codes v, pShowPromptTail)),
    -- what\s+(are|is)\s+(your|the)\s+(system\s+)?(prompt|instructions?|rules?|guidelines?)
    [(str2codes "what",
      pseq pws1 (pseq (palt [pstr (str2codes "are"), pstr (str2codes "is")])
        (pseq pws1 (pseq (palt [pstr (str2codes "your"), pstr (str2codes "the")])
          (pseq pws1 (pseq (popt (pseq (pstr (str2codes "system")) pws1))
            pPromptTargets))))))],
    -- repeat\s+(your|the)\s+(system\s+)?(prompt|instructions?|configuration)
    [(str2codes "repeat",
      pseq pws1 (pseq (palt [pstr (str2codes "your"), pstr (str2codes "the")])
        (pseq pws1 (pseq (popt (pseq (pstr (str2codes "system")) pws1))
          (palt [pstr (str2codes "prompt"), pOptS "instruction",
            pstr (str2codes "configuration")])))))],
    -- (show|print|display|reveal|tell|share|output|give)\s+(me\s+)?(the\s+)?(api\s*key|secret|token|password|credential)
    REVEAL_VERBS.map (fun v => (str2codes v, pShowSecretTail)),
    -- what\s+(is|are)\s+(the\s+)?(api\s*key|secret|token|password|credential)
    [(str2codes "what",
      pseq pws1 (pseq (palt [pstr (str2codes "is"), pstr (str2codes "are")])
        (pseq pws1 (pseq (popt (pseq (pstr (str2codes "the")) pws1))
          pSecretTargets))))],
    -- (access|read|show|print|display)\s+(the\s+)?\.env
    (["access", "read", "show", "print", "display"].map (fun v =>
      (str2codes v,
        pseq pws1 (pseq (popt (pseq (pstr (str2codes "the")) pws1))
          (pstr (str2codes ".env")))))),
    -- (what|show|print).+(in|from|inside)\s+(the\s+)?\.env
    (["what", "show", "print"].map (fun v =>
      (str2codes v, pdotplus pDotEnvAfter))),
    -- environment\s+variable
    [(str2codes "environment", pseq pws1 (pstr (str2codes "variable")))],
    -- OPENAI_API_KEY
    [(str2codes "openai_api_key", pid)],
    -- ANTHROPIC_API_KEY
    [(str2codes "anthropic_api_key", pid)],
    -- (you\s+are|act\s+as|pretend\s+to\s+be|roleplay\s+as)\s+(now\s+)?(a\s+)?(different|new|another)
    [(str2codes "you", pseq pws1 (pseq (pstr (str2codes "are")) pPersonaTail)),
     (str2codes "act", pseq pws1 (pseq (pstr (str2codes "as")) pPersonaTail)),
     (str2codes "pretend", pseq pws1 (pseq (pstr (str2codes "to"))
       (pseq pws1 (pseq (pstr (str2codes "be")) pPersonaTail)))),
     (str2codes "roleplay", pseq pws1 (pseq (pstr (str2codes "as")) pPersonaTail))],
    -- (switch|change)\s+(to\s+)?(a\s+)?(new|different)\s+(mode|role|persona)
    (["switch", "change"].map (fun v =>
      (str2codes v,
        pseq pws1 (pseq (popt (pseq (pstr (str2codes "to")) pws1))
          (pseq (popt (pseq (pstr (str2codes "a")) pws1))
            (pseq (palt [pstr (str2codes "new"), pstr (str2codes "different")])
              (pseq pws1 (palt [pstr (str2codes "mode"), pstr (str2codes "role"),
                pstr (str2codes "persona")])))))))),
    -- jailbreak
    [(str2codes "jailbreak", pid)],
    -- DAN\s+mode
    [(str2codes "dan", pseq pws1 (pstr (str2codes "mode")))],
    -- <\/?system>
    [(str2codes "<", pseq (popt (pstr (str2codes "/"))) (pstr (str2codes "system>")))],
    -- \[\/?INST\]
    [(str2codes "[", pseq (popt (pstr (str2codes "/"))) (pstr (str2codes "inst]")))],
    -- ```(system|instructions?|prompt)
    [(str2codes "```",
      palt [pstr (str2codes "system"), pOptS "instruction", pstr (str2codes "prompt")])],
    -- ---\s*(system|instructions?|prompt)
    [(str2codes "---",
      pseq pws0 (palt [pstr (str2codes "system"), pOptS "instruction",
        pstr (str2codes "prompt")]))],
    -- (execute|run|eval)\s+(this\s+)?(code|script|command)
    (["execute", "run", "eval"].map (fun v =>
      (str2codes v,
        pseq pws1 (pseq (popt (pseq (pstr (str2codes "this")) pws1))
          (palt [pstr (str2codes "code"), pstr (str2codes "script"),
            pstr (str2codes "command")]))))),
    -- import\s+os|subprocess|exec\(   (a top-level alternation)
    [(str2codes "import", pseq pws1 (pstr (str2codes "os"))),
     (str2codes "subprocess", pid),
     (str2codes "exec(", pid)]]

/-- `COMPILED_INJECTION_PATTERNS` -/
def COMPILED_INJECTION_PATTERNS : List RMatch := INJ_BRANCHES.map mkpat

/-- `check_injection_patterns` (the boolean component; the matched-pattern
string returned alongside it is not modelled, no claim reads it). -/
def check_injection_patterns (text : List Nat) : Bool :=
  COMPILED_INJECTION_PATTERNS.any (fun p => psearch p (lowerCodes text))

/-! ### LEAKAGE_PATTERNS.  Classes under IGNORECASE on lowered text:
`[A-Za-z0-9]` becomes `isAlnumN`, `[A-Za-z0-9_-]` adds `_`/`-`, and so on. -/

def isKeyCharN (c : Nat) : Bool := isAlnumN c || c = 95 || c = 45

/-- `[A-Za-z0-9_.-]` (bearer-token class). -/
def isTokenCharN (c : Nat) : Bool := isKeyCharN c || c = 46

/-- `[A-Za-z0-9/+=]` (AWS secret class). -/
def isAwsCharN (c : Nat) : Bool := isAlnumN c || c = 47 || c = 43 || c = 61

/-- `\s*[=:]\s*['"]?[A-Za-z0-9_-]{20,}`, the shared tail of the generic
API-key pattern. -/
def pAssignTail (minLen : Nat) : RMatch :=
  pseq pws0 (pseq (palt [pstr (str2codes "="), pstr (str2codes ":")])
    (pseq pws0 (pseq (popt (palt [pstr (str2codes "'"), pstr (str2codes "\"")]))
      (pclass isKeyCharN minLen))))

/-- `://[^:]+:[^@]+@` -/
def pCredUrlTail : RMatch :=
  pseq (pstr (str2codes "://"))
    (pseq (pclass (fun c => c != 58) 1)
      (pseq (pstr (str2codes ":"))
        (pseq (pclass (fun c => c != 64) 1) (pstr (str2codes "@")))))

/-- The 14 entries of `LEAKAGE_PATTERNS`, each as its branch list.  The
leading `[A-Za-z0-9_]*` of the generic API-key pattern is dropped: under
`re.search` a `*`-repeated leading class never changes whether a match
exists (it may match empty at any position). -/
def LEAK_BRANCHES : List (List (List Nat × RMatch)) :=
  [ -- sk-proj-[A-Za-z0-9_-]{20,}
    [(str2codes "sk-proj-", pclass isKeyCharN 20)],
    -- sk-[A-Za-z0-9]{20,}
    [(str2codes "sk-", pclass isAlnumN 20)],
    -- sk-ant-[A-Za-z0-9_-]{20,}
    [(str2codes "sk-ant-", pclass isKeyCharN 20)],
    -- AIzaSy[A-Za-z0-9_-]{33}
    [(str2codes "aizasy", pclassExact isKeyCharN 33)],
    -- gsk_[A-Za-z0-9]{20,}
    [(str2codes "gsk_", pclass isAlnumN 20)],
    -- [A-Za-z0-9_]*(api[_-]?key|apikey|secret[_-]?key|access[_-]?token)\s*[=:]\s*['\"]?[A-Za-z0-9_-]{20,}
    [(str2codes "api",
      pseq (popt (palt [pstr (str2codes "_"), pstr (str2codes "-")]))
        (pseq (pstr (str2codes "key")) (pAssignTail 20))),
     (str2codes "apikey", pAssignTail 20),
     (str2codes "secret",
      pseq (popt (palt [pstr (str2codes "_"), pstr (str2codes "-")]))
        (pseq (pstr (str2codes "key")) (pAssignTail 20))),
     (str2codes "access",
      pseq (popt (palt [pstr (str2codes "_"), pstr (str2codes "-")]))
        (pseq (pstr (str2codes "token")) (pAssignTail 20)))],
    -- Bearer\s+[A-Za-z0-9_.-]{20,}
    [(str2codes "bearer", pseq pws1 (pclass isTokenCharN 20))],
    -- Authorization:\s*(Bearer\s+)?[A-Za-z0-9_.-]{20,}
    [(str2codes "authorization:",
      pseq pws0 (pseq (popt (pseq (pstr (str2codes "bearer")) pws1))
        (pclass isTokenCharN 20)))],
    -- (OPENAI_API_KEY|ANTHROPIC_API_KEY|API_KEY|SECRET_KEY|ACCESS_TOKEN)\s*=\s*['\"]?[A-Za-z0-9_-]{10,}
    (["openai_api_key", "anthropic_api_key", "api_key", "secret_key",
        "access_token"].map (fun v =>
      (str2codes v,
        pseq pws0 (pseq (pstr (str2codes "="))
          (pseq pws0 (pseq (popt (palt [pstr (str2codes "'"),
            pstr (str2codes "\"")])) (pclass isKeyCharN 10))))))),
    -- AKIA[0-9A-Z]{16}
    [(str2codes "akia", pclassExact isAlnumN 16)],
    -- aws_secret_access_key\s*=\s*['\"]?[A-Za-z0-9/+=]{40}
    [(str2codes "aws_secret_access_key",
      pseq pws0 (pseq (pstr (str2codes "="))
        (pseq pws0 (pseq (popt (palt [pstr (str2codes "'"),
          pstr (str2codes "\"")])) (pclassExact isAwsCharN 40)))))],
    -- (postgres|mysql|mongodb)://[^:]+:[^@]+@
    (["postgres", "mysql", "mongodb"].map (fun v => (str2codes v, pCredUrlTail))),
    -- eyJ[A-Za-z0-9_-]{10,}\.eyJ[A-Za-z0-9_-]{10,}\.[A-Za-z0-9_-]{20,}
    [(str2codes "eyj",
      pseq (pclass isKeyCharN 10)
        (pseq (pstr (str2codes ".eyj"))
          (pseq (pclass isKeyCharN 10)
            (pseq (pstr (str2codes ".")) (pclass isKeyCharN 20)))))],
    -- -----BEGIN\s+(RSA\s+)?PRIVATE\s+KEY-----
    [(str2codes "-----begin",
      pseq pws1 (pseq (popt (pseq (pstr (str2codes "rsa")) pws1))
        (pseq (pstr (str2codes "private"))
          (pseq pws1 (pstr (str2codes "key-----"))))))]]

/-- `COMPILED_LEAKAGE_PATTERNS` -/
def COMPILED_LEAKAGE_PATTERNS : List RMatch := LEAK_BRANCHES.map mkpat

/-- `check_leakage_patterns` (boolean component). -/
def check_leakage_patterns (text : List Nat) : Bool :=
  COMPILED_LEAKAGE_PATTERNS.any (fun p => psearch p (lowerCodes text))

/-! ### `_seems_suspicious` (injection_detector.py): the Tier-2 heuristic gate. -/

/-- `["```", "\x7b\x7b", "\x7d\x7d", "<%", "%>", "$\x7b", "$("]` — the
`suspicious_chars` list, as code lists (96 = backtick, 123/125 = braces,
60 = `<`, 37 = `%`, 62 = `>`, 36 = `$`, 40 = `(`). -/
def SUSPICIOUS_CHARS : List (List Nat) :=
  [[96, 96, 96], [123, 123], [125, 125], [60, 37], [37, 62], [36, 123], [36, 40]]

def SUSPICIOUS_WORDS : List (List Nat) :=
  ["instruction", "prompt", "system", "ignore", "override", "forget",
   "pretend", "roleplay", "execute", "eval"].map str2codes

/-- `_seems_suspicious`: length > 500, more than five newlines, a
code-delimiter token in the raw text, or a suspicious word in the lowered
text. -/
def seems_suspicious (text : List Nat) : Bool :=
  if 500 < text.length then true
  else if 5 < text.count 10 then true
  else if SUSPICIOUS_CHARS.any (fun s => containsSub text s) then true
  else if SUSPICIOUS_WORDS.any (fun s => containsSub (lowerCodes text) s) then true
  else false

/-! ### The benign-name vocabulary for C7.

"Benign two-word company name" is formalised as: two non-empty ASCII-letter
words joined by one space, at most 500 characters in all, whose lowercased
text contains none of the trigger words below.  The trigger list collects
every letters-only head literal of the 26 injection patterns together with
the `suspicious_words` of the heuristic gate; every remaining head literal
contains a character that is neither a letter nor a space, which a benign
name cannot contain. -/

def INJECTION_TRIGGER_WORDS : List (List Nat) :=
  ["ignore", "disregard", "forget", "override", "show", "print", "display",
   "reveal", "tell", "share", "output", "give", "what", "repeat", "access",
   "read", "environment", "you", "act", "pretend", "roleplay", "switch",
   "change", "jailbreak", "dan", "execute", "run", "eval", "import",
   "subprocess", "instruction", "prompt", "system"].map str2codes

def isLowerSpaceN (c : Nat) : Bool := isLowerN c || c = 32

/-- Every head literal of every injection pattern is either a trigger word or
contains a non-(lowercase letter/space) character. -/
def injHeadsOK : Bool :=
  INJ_BRANCHES.all (fun bs => bs.all (fun b =>
    decide (b.1 ∈ INJECTION_TRIGGER_WORDS) || b.1.any (fun c => !(isLowerSpaceN c))))

/-- Every `suspicious_chars` entry contains a non-(letter/space) character, and
every `suspicious_word` is a trigger word. -/
def suspHeadsOK : Bool :=
  SUSPICIOUS_CHARS.all (fun s => s.any (fun c => !(isAlphaN c || c = 32))) &&
  SUSPICIOUS_WORDS.all (fun s => decide (s ∈ INJECTION_TRIGGER_WORDS))

/-- The benign two-word company name predicate of C7. -/
def benignTwoWordName (w1 w2 : List Nat) : Bool :=
  !w1.isEmpty && !w2.isEmpty && (w1 ++ w2).all isAlphaN &&
  decide (w1.length + 1 + w2.length ≤ 500) &&
  INJECTION_TRIGGER_WORDS.all
    (fun kw => !containsSub (lowerCodes (w1 ++ 32 :: w2)) kw)

/-! ### Matcher lemmas -/

theorem pstr_isSome_prefix : ∀ {kw cs : List Nat},
    (pstr kw cs).isSome = true → kw <+: cs := by
  intro kw
  induction kw with
  | nil => intro cs _; exact List.nil_prefix
  | cons k ks ih =>
    intro cs h
    cases cs with
    | nil => simp [pstr] at h
    | cons c rest =>
      by_cases hc : c = k
      · subst hc
        simp only [pstr, if_pos rfl] at h
        exact (List.prefix_cons_inj c).mpr (ih h)
      · simp [pstr, hc] at h

theorem pstr_self_append (kw rest : List Nat) : pstr kw (kw ++ rest) = some rest := by
  induction kw with
  | nil => rfl
  | cons k ks ih => simp [pstr, ih]

theorem pseq_isSome {p q : RMatch} {cs : List Nat}
    (h : (pseq p q cs).isSome = true) : (p cs).isSome = true := by
  unfold pseq at h
  cases hp : p cs with
  | none => rw [hp] at h; simp [Option.bind] at h
  | some r => rfl

theorem palt_isSome : ∀ {ps : List RMatch} {cs : List Nat},
    (palt ps cs).isSome = true → ∃ p ∈ ps, (p cs).isSome = true := by
  intro ps
  induction ps with
  | nil => intro cs h; simp [palt] at h
  | cons p rest ih =>
    intro cs h
    unfold palt at h
    cases hp : p cs with
    | some r => exact ⟨p, List.mem_cons_self _ _, by rw [hp]; rfl⟩
    | none =>
      rw [hp] at h
      simp only [Option.orElse, Option.none_orElse] at h
      obtain ⟨q, hq, hqs⟩ := ih h
      exact ⟨q, List.mem_cons_of_mem _ hq, hqs⟩

theorem psearch_exists : ∀ {l : List Nat} {p : RMatch},
    psearch p l = true → ∃ s, s <:+ l ∧ (p s).isSome = true := by
  intro l
  induction l with
  | nil =>
    intro p h
    exact ⟨[], List.suffix_rfl, h⟩
  | cons c rest ih =>
    intro p h
    unfold psearch at h
    rcases Bool.or_eq_true_iff.mp h with h | h
    · exact ⟨c :: rest, List.suffix_rfl, h⟩
    · obtain ⟨s, hs, hm⟩ := ih h
      exact ⟨s, hs.trans (List.suffix_cons c rest), hm⟩

theorem psearch_of_suffix {p : RMatch} : ∀ {l s : List Nat},
    (p s).isSome = true → s <:+ l → psearch p l = true := by
  intro l
  induction l with
  | nil =>
    intro s hm hs
    rw [List.suffix_nil.mp hs] at hm
    exact hm
  | cons c rest ih =>
    intro s hm hs
    rcases List.suffix_cons_iff.mp hs with hs | hs
    · subst hs
      unfold psearch pmatch
      rw [hm]
      rfl
    · unfold psearch
      rw [ih hm hs]
      simp

theorem mkpat_head {bs : List (List Nat × RMatch)} {l : List Nat}
    (h : psearch (mkpat bs) l = true) :
    ∃ b ∈ bs, containsSub l b.1 = true := by
  obtain ⟨s, hsuf, hm⟩ := psearch_exists h
  obtain ⟨p, hp, hps⟩ := palt_isSome hm
  obtain ⟨b, hb, rfl⟩ := List.mem_map.mp hp
  have hpre := pstr_isSome_prefix (pseq_isSome hps)
  refine ⟨b, hb, ?_⟩
  unfold containsSub
  exact decide_eq_true (hpre.isInfix.trans hsuf.isInfix)

theorem containsSub_subset {l kw : List Nat} (h : containsSub l kw = true) :
    ∀ c ∈ kw, c ∈ l :=
  fun _ hc => (of_decide_eq_true h).subset hc

theorem takeWhile_append_le {f : Nat → Bool} :
    ∀ (run t : List Nat), run.all f = true →
      run.length ≤ ((run ++ t).takeWhile f).length := by
  intro run
  induction run with
  | nil => intro t _; simp
  | cons c rest ih =>
    intro t hall
    simp only [List.all_cons, Bool.and_eq_true] at hall
    simp only [List.cons_append, List.takeWhile_cons, hall.1, if_true,
      List.length_cons]
    exact Nat.succ_le_succ (ih t hall.2)

theorem isLowerN_lcN_of_alpha {c : Nat} (h : isAlphaN c = true) :
    isLowerN (lcN c) = true := by
  simp only [isAlphaN, isUpperN, isLowerN, Bool.or_eq_true, Bool.and_eq_true,
    decide_eq_true_eq] at h ⊢
  unfold lcN
  split
  · omega
  · omega

theorem isAlnumN_lcN {c : Nat} (h : isAlnumN c = true) : isAlnumN (lcN c) = true := by
  simp only [isAlnumN, Bool.or_eq_true] at h
  rcases h with h | h
  · simp [isAlnumN, isAlphaN, isLowerN_lcN_of_alpha h]
  · simp only [isDigitN, Bool.and_eq_true, decide_eq_true_eq] at h
    have : lcN c = c := by unfold lcN; split <;> omega
    simp [this, isAlnumN, isDigitN]
    omega

theorem injHeadsOK_true : injHeadsOK = true := by decide

theorem suspHeadsOK_true : suspHeadsOK = true := by decide

/-- C7: every string containing `sk-` followed by at least 20 alphanumeric
characters trips the Tier-1 OUTPUT leakage check; and every benign two-word
company name (two non-empty letter words, one space, ≤ 500 characters, free of
the injection trigger vocabulary) neither trips the Tier-1 INPUT injection
check nor escalates past the Tier-2 heuristic gate. -/
theorem claim_C7 :
    (∀ (pre run suf : List Nat), 20 ≤ run.length → run.all isAlnumN = true →
      check_leakage_patterns (pre ++ str2codes "sk-" ++ run ++ suf) = true) ∧
    (∀ (w1 w2 : List Nat), benignTwoWordName w1 w2 = true →
      check_injection_patterns (w1 ++ 32 :: w2) = false ∧
      seems_suspicious (w1 ++ 32 :: w2) = false) := by
  constructor
  · intro pre run suf hlen halnum
    have hlow : lowerCodes (pre ++ str2codes "sk-" ++ run ++ suf) =
        lowerCodes pre ++ (str2codes "sk-" ++ (lowerCodes run ++ lowerCodes suf)) := by
      simp only [lowerCodes, List.map_append, List.append_assoc,
        show List.map lcN (str2codes "sk-") = str2codes "sk-" from by decide]
    have hall : (lowerCodes run).all isAlnumN = true := by
      rw [List.all_eq_true] at halnum ⊢
      intro c hc
      obtain ⟨c0, hc0, rfl⟩ := List.mem_map.mp hc
      exact isAlnumN_lcN (halnum c0 hc0)
    have htw : 20 ≤ ((lowerCodes run ++ lowerCodes suf).takeWhile isAlnumN).length := by
      have h1 := takeWhile_append_le (lowerCodes run) (lowerCodes suf) hall
      have h2 : (lowerCodes run).length = run.length := List.length_map _ _
      omega
    have hmatch : ((mkpat [(str2codes "sk-", pclass isAlnumN 20)])
        (str2codes "sk-" ++ (lowerCodes run ++ lowerCodes suf))).isSome = true := by
      simp [mkpat, palt, pseq, pstr_self_append, pclass, htw]
    have hmem : mkpat [(str2codes "sk-", pclass isAlnumN 20)] ∈
        COMPILED_LEAKAGE_PATTERNS := by
      unfold COMPILED_LEAKAGE_PATTERNS LEAK_BRANCHES
      exact List.mem_map_of_mem mkpat (List.mem_cons_of_mem _ (List.mem_cons_self _ _))
    unfold check_leakage_patterns
    refine List.any_eq_true.mpr ⟨_, hmem, ?_⟩
    rw [hlow]
    exact psearch_of_suffix hmatch ⟨lowerCodes pre, rfl⟩
  · intro w1 w2 hb
    simp only [benignTwoWordName, Bool.and_eq_true, Bool.not_eq_true',
      decide_eq_true_eq, List.all_eq_true] at hb
    obtain ⟨⟨⟨⟨hne1, hne2⟩, halpha⟩, hlen500⟩, htrig⟩ := hb
    have hraw : ∀ c ∈ (w1 ++ 32 :: w2), isAlphaN c = true ∨ c = 32 := by
      intro c hc
      rcases List.mem_append.mp hc with h | h
      · exact Or.inl (halpha c (List.mem_append_left _ h))
      · rcases List.mem_cons.mp h with h | h
        · exact Or.inr h
        · exact Or.inl (halpha c (List.mem_append_right _ h))
    have hlowchars : ∀ c ∈ lowerCodes (w1 ++ 32 :: w2), isLowerSpaceN c = true := by
      intro c hc
      obtain ⟨c0, hc0, rfl⟩ := List.mem_map.mp hc
      rcases hraw c0 hc0 with h | h
      · simp [isLowerSpaceN, isLowerN_lcN_of_alpha h]
      · subst h; decide
    have hinj : check_injection_patterns (w1 ++ 32 :: w2) = false := by
      rcases Bool.eq_false_or_eq_true (check_injection_patterns (w1 ++ 32 :: w2)) with
        h | h
      case inr => exact h
      exfalso
      unfold check_injection_patterns at h
      obtain ⟨p, hp, hps⟩ := List.any_eq_true.mp h
      obtain ⟨bs, hbs, rfl⟩ := List.mem_map.mp hp
      obtain ⟨b, hbmem, hcont⟩ := mkpat_head hps
      have hok := injHeadsOK_true
      unfold injHeadsOK at hok
      rw [List.all_eq_true] at hok
      have h1 := hok bs hbs
      rw [List.all_eq_true] at h1
      have h2 := h1 b hbmem
      rcases Bool.or_eq_true_iff.mp h2 with h3 | h3
      · have hmem := of_decide_eq_true h3
        have hfalse := htrig b.1 hmem
        simp [hfalse] at hcont
      · obtain ⟨c, hcmem, hcl⟩ := List.any_eq_true.mp h3
        have hcin := containsSub_subset hcont c hcmem
        have hls := hlowchars c hcin
        simp [hls] at hcl
    refine ⟨hinj, ?_⟩
    have g1 : ¬(500 < (w1 ++ 32 :: w2).length) := by
      simp only [List.length_append, List.length_cons]
      omega
    have g2 : ¬(5 < (w1 ++ 32 :: w2).count 10) := by
      have hzero : (w1 ++ 32 :: w2).count 10 = 0 := by
        rw [List.count_eq_zero]
        intro hmem
        rcases hraw 10 hmem with h | h
        · exact absurd h (by decide)
        · exact absurd h (by decide)
      omega
    have g3 : ¬(SUSPICIOUS_CHARS.any (fun s => containsSub (w1 ++ 32 :: w2) s) = true) := by
      rw [List.any_eq_true]
      rintro ⟨s, hs, hcont⟩
      have hok := suspHeadsOK_true
      unfold suspHeadsOK at hok
      rw [Bool.and_eq_true] at hok
      obtain ⟨c, hcmem, hcl⟩ := List.any_eq_true.mp ((List.all_eq_true.mp hok.1) s hs)
      have hcin := containsSub_subset hcont c hcmem
      rcases hraw c hcin with h | h
      · simp [h] at hcl
      · subst h; simp at hcl
    have g4 : ¬(SUSPICIOUS_WORDS.any
        (fun s => containsSub (lowerCodes (w1 ++ 32 :: w2)) s) = true) := by
      rw [List.any_eq_true]
      rintro ⟨s, hs, hcont⟩
      have hok := suspHeadsOK_true
      unfold suspHeadsOK at hok
      rw [Bool.and_eq_true] at hok
      have hmem := of_decide_eq_true ((List.all_eq_true.mp hok.2) s hs)
      have hfalse := htrig s hmem
      simp [hfalse] at hcont
    unfold seems_suspicious
    rw [if_neg g1, if_neg g2, if_neg g3, if_neg g4]

theorem claim_C7_witness :
    (20 ≤ (List.replicate 20 97).length ∧ (List.replicate 20 97).all isAlnumN = true ∧
      check_leakage_patterns
        ([] ++ str2codes "sk-" ++ List.replicate 20 97 ++ []) = true) ∧
    (benignTwoWordName (str2codes "acme") (str2codes "corp") = true ∧
      check_injection_patterns (str2codes "acme" ++ 32 :: str2codes "corp") = false ∧
      seems_suspicious (str2codes "acme" ++ 32 :: str2codes "corp") = false) :=
  ⟨⟨by decide, by decide,
      claim_C7.1 [] (List.replicate 20 97) [] (by decide) (by decide)⟩,
    ⟨by decide, claim_C7.2 (str2codes "acme") (str2codes "corp") (by decide)⟩⟩

/-! ## Scout batching (backend/app/services/scout_analysis.py) -/

/-- Python `range(0, stop, step)` for `step ≥ 1`. -/
def pyRangeStep (stop step : Nat) : List Nat :=
  (List.range ((stop + step - 1) / step)).map (· * step)

/-- `batch_repos`:
`[repos[i : i + batch_size] for i in range(0, len(repos), batch_size)]`. -/
def batch_repos {α : Type} (repos : List α) (batch_size : Nat) : List (List α) :=
  (pyRangeStep repos.length batch_size).map
    (fun i => (repos.drop i).take batch_size)

theorem batch_repos_nil {α : Type} (bs : Nat) (hbs : 1 ≤ bs) :
    batch_repos ([] : List α) bs = [] := by
  unfold batch_repos pyRangeStep
  simp only [List.length_nil, Nat.zero_add]
  have hlt : bs - 1 < bs := by omega
  rw [Nat.div_eq_of_lt hlt]
  rfl

theorem batch_repos_cons {α : Type} (l : List α) (bs : Nat) (hbs : 1 ≤ bs)
    (hne : l ≠ []) :
    batch_repos l bs = l.take bs :: batch_repos (l.drop bs) bs := by
  have hL : 1 ≤ l.length := List.length_pos.mpr hne
  have hcount : (l.length + bs - 1) / bs = ((l.length - bs) + bs - 1) / bs + 1 := by
    have e1 : l.length + bs - 1 = (l.length - 1) + bs := by omega
    rw [e1, Nat.add_div_right _ (by omega : 0 < bs)]
    rcases le_or_lt l.length bs with h | h
    · have e2 : l.length - bs = 0 := by omega
      rw [e2]
      have e3 : 0 + bs - 1 = bs - 1 := by omega
      rw [e3, Nat.div_eq_of_lt (by omega), Nat.div_eq_of_lt (by omega)]
    · have e2 : l.length - bs + bs - 1 = (l.length - 1 - bs) + bs := by omega
      rw [e2, Nat.add_div_right _ (by omega : 0 < bs)]
      have e3 : l.length - 1 = (l.length - 1 - bs) + bs := by omega
      conv_lhs => rw [e3]
      rw [Nat.add_div_right _ (by omega : 0 < bs)]
  unfold batch_repos pyRangeStep
  rw [List.length_drop, hcount, List.range_succ_eq_map]
  simp only [List.map_cons, List.map_map, Nat.zero_mul, List.drop_zero]
  congr 1
  apply List.map_congr_left
  intro k _
  simp only [Function.comp]
  rw [List.drop_drop]
  congr 1
  rw [Nat.succ_mul]
  ring

/-- C10: for every repo list and batch size `n ≥ 1`, the batches concatenate
back to the original list in order, and each batch has between 1 and `n`
elements. -/
theorem claim_C10 {α : Type} (repos : List α) (bs : Nat) (hbs : 1 ≤ bs) :
    (batch_repos repos bs).join = repos ∧
    ∀ b ∈ batch_repos repos bs, 1 ≤ b.length ∧ b.length ≤ bs := by
  suffices H : ∀ (n : Nat) (l : List α), l.length ≤ n →
      (batch_repos l bs).join = l ∧
      ∀ b ∈ batch_repos l bs, 1 ≤ b.length ∧ b.length ≤ bs from
    H repos.length repos le_rfl
  intro n
  induction n with
  | zero =>
    intro l hl
    have : l = [] := List.eq_nil_of_length_eq_zero (Nat.le_zero.mp hl)
    subst this
    rw [batch_repos_nil bs hbs]
    exact ⟨rfl, by intro b hb; simp at hb⟩
  | succ n ih =>
    intro l hl
    rcases eq_or_ne l [] with hnil | hne
    · subst hnil
      rw [batch_repos_nil bs hbs]
      exact ⟨rfl, by intro b hb; simp at hb⟩
    · have hL : 1 ≤ l.length := List.length_pos.mpr hne
      have hrec := ih (l.drop bs) (by rw [List.length_drop]; omega)
      rw [batch_repos_cons l bs hbs hne]
      constructor
      · simp only [List.join_cons, hrec.1, List.take_append_drop]
      · intro b hb
        rcases List.mem_cons.mp hb with hb | hb
        · subst hb
          rw [List.length_take]
          omega
        · exact hrec.2 b hb

theorem claim_C10_witness :
    (batch_repos ([1, 2, 3] : List Nat) 2).join = [1, 2, 3] ∧
    ∀ b ∈ batch_repos ([1, 2, 3] : List Nat) 2, 1 ≤ b.length ∧ b.length ≤ 2 :=
  claim_C10 [1, 2, 3] 2 (by decide)

/-! ### Terminal-marker structure of the research and drill streams (C2) -/

theorem researchExcEvent_terminal (e : PipeExc) :
    (researchExcEvent e).isTerminal = true := by
  cases e <;> rfl

theorem drillExcEvent_terminal (e : PipeExc) :
    (drillExcEvent e).isTerminal = true := by
  cases e <;> rfl

/-- The event list of every research run is a block of non-terminal events
followed by exactly one terminal (`complete` or `error`) event. -/
theorem research_stream_terminal (env : ResearchEnv) :
    ∃ init t, research_company_stream env = init ++ [t] ∧
      Ev.isTerminal t = true ∧ ∀ e ∈ init, Ev.isTerminal e = false := by
  unfold research_company_stream
  cases hp : plan_searches env.planOutcome with
  | error e =>
    refine ⟨[Ev.status "Planning research strategy..."], researchExcEvent e, rfl,
      researchExcEvent_terminal e, ?_⟩
    intro x hx
    rw [List.mem_singleton] at hx
    subst hx
    rfl
  | ok plan =>
    have hfan : ∀ e ∈ inlEvents
        (execute_searches_go plan.searches.length env.searchRun 0).1,
        Ev.isTerminal e = false := by
      intro e he
      obtain ⟨m, hm⟩ :=
        execute_searches_go_inl_status env.searchRun 0 e (mem_inlEvents he)
      rw [hm]
      rfl
    simp only []
    cases hexc : (execute_searches_go plan.searches.length env.searchRun 0).2 with
    | some e =>
      refine ⟨[Ev.status "Planning research strategy...",
          Ev.status s!"Found {plan.searches.length} areas to research"] ++
          inlEvents (execute_searches_go plan.searches.length env.searchRun 0).1,
        researchExcEvent e, by simp [List.append_assoc],
        researchExcEvent_terminal e, ?_⟩
      intro x hx
      simp only [List.cons_append, List.nil_append, List.mem_cons] at hx
      rcases hx with hx | hx | hx
      · subst hx; rfl
      · subst hx; rfl
      · exact hfan x hx
    | none =>
      by_cases hres :
          (inrResults (execute_searches_go plan.searches.length env.searchRun 0).1).isEmpty
      · refine ⟨[Ev.status "Planning research strategy...",
            Ev.status s!"Found {plan.searches.length} areas to research"] ++
            inlEvents (execute_searches_go plan.searches.length env.searchRun 0).1,
          Ev.error "All searches failed. Please try again.",
          by simp [hres, List.append_assoc], rfl, ?_⟩
        intro x hx
        simp only [List.cons_append, List.nil_append, List.mem_cons] at hx
        rcases hx with hx | hx | hx
        · subst hx; rfl
        · subst hx; rfl
        · exact hfan x hx
      · cases hsum : summarize_results env.summaryOutcome with
        | error e =>
          refine ⟨[Ev.status "Planning research strategy...",
              Ev.status s!"Found {plan.searches.length} areas to research"] ++
              inlEvents (execute_searches_go plan.searches.length env.searchRun 0).1 ++
              [Ev.status "Analyzing findings..."],
            researchExcEvent e, by simp [hres, List.append_assoc],
            researchExcEvent_terminal e, ?_⟩
          intro x hx
          simp only [List.append_assoc, List.cons_append, List.nil_append,
            List.mem_cons, List.mem_append, List.mem_singleton] at hx
          rcases hx with hx | hx | hx | hx
          · subst hx; rfl
          · subst hx; rfl
          · exact hfan x hx
          · rcases hx with hx | hx
            · subst hx; rfl
            · exact absurd hx (List.not_mem_nil x)
        | ok summary =>
          refine ⟨[Ev.status "Planning research strategy...",
              Ev.status s!"Found {plan.searches.length} areas to research"] ++
              inlEvents (execute_searches_go plan.searches.length env.searchRun 0).1 ++
              [Ev.status "Analyzing findings..."],
            Ev.complete summary, by simp [hres, List.append_assoc], rfl, ?_⟩
          intro x hx
          simp only [List.append_assoc, List.cons_append, List.nil_append,
            List.mem_cons, List.mem_append, List.mem_singleton] at hx
          rcases hx with hx | hx | hx | hx
          · subst hx; rfl
          · subst hx; rfl
          · exact hfan x hx
          · rcases hx with hx | hx
            · subst hx; rfl
            · exact absurd hx (List.not_mem_nil x)

/-- The event list of every drill-generation run is a block of non-terminal
events followed by exactly one terminal event. -/
theorem drill_stream_terminal (completed : List (DrillType × String × GenOutcome))
    (eo : EvalOutcome) :
    ∃ init t, (generate_drill_stream completed eo).1 = init ++ [t] ∧
      Ev.isTerminal t = true ∧ ∀ e ∈ init, Ev.isTerminal e = false := by
  have hfan := drill_fanout_nonterminal completed
  have hinit2 : ∀ (x : Ev Drill) (extra : List (Ev Drill)),
      (∀ y ∈ extra, Ev.isTerminal y = false) →
      x ∈ [Ev.status "Starting drill generation...",
        Ev.status s!"Generating {(ALL_GENERATORS.take HOW_MANY_GENERATORS).length} drill candidates in parallel..."] ++
        (drill_stream_fanout completed).1 ++ extra →
      Ev.isTerminal x = false := by
    intro x extra hextra hx
    simp only [List.append_assoc, List.cons_append, List.nil_append,
      List.mem_cons, List.mem_append] at hx
    rcases hx with hx | hx | hx | hx
    · subst hx; rfl
    · subst hx; rfl
    · exact hfan x hx
    · exact hextra x hx
  unfold generate_drill_stream
  cases hexc : (drill_stream_fanout completed).2.2 with
  | some e =>
    simp only [hexc]
    refine ⟨[Ev.status "Starting drill generation...",
        Ev.status s!"Generating {(ALL_GENERATORS.take HOW_MANY_GENERATORS).length} drill candidates in parallel..."] ++
        (drill_stream_fanout completed).1,
      drillExcEvent e, by simp [List.append_assoc], drillExcEvent_terminal e, ?_⟩
    intro x hx
    exact hinit2 x [] (by intro y hy; simp at hy) (by simpa using hx)
  | none =>
    simp only [hexc]
    cases hcands : (drill_stream_fanout completed).2.1 with
    | nil =>
      simp only [hcands]
      refine ⟨[Ev.status "Starting drill generation...",
          Ev.status s!"Generating {(ALL_GENERATORS.take HOW_MANY_GENERATORS).length} drill candidates in parallel..."] ++
          (drill_stream_fanout completed).1,
        Ev.error "All generators failed. Please try again.",
        by simp [List.append_assoc], rfl, ?_⟩
      intro x hx
      exact hinit2 x [] (by intro y hy; simp at hy) (by simpa using hx)
    | cons c1 rest =>
      cases rest with
      | nil =>
        simp only [hcands]
        refine ⟨[Ev.status "Starting drill generation...",
            Ev.status s!"Generating {(ALL_GENERATORS.take HOW_MANY_GENERATORS).length} drill candidates in parallel..."] ++
            (drill_stream_fanout completed).1 ++
            [Ev.status "Only one candidate generated, using it directly."],
          Ev.complete c1.drill, by simp [List.append_assoc], rfl, ?_⟩
        intro x hx
        refine hinit2 x [Ev.status "Only one candidate generated, using it directly."]
          ?_ (by simpa [List.append_assoc] using hx)
        intro y hy
        rw [List.mem_singleton] at hy
        subst hy
        rfl
      | cons c2 cs =>
        cases eo with
        | ok ev =>
          simp only [hcands]
          refine ⟨[Ev.status "Starting drill generation...",
              Ev.status s!"Generating {(ALL_GENERATORS.take HOW_MANY_GENERATORS).length} drill candidates in parallel..."] ++
              (drill_stream_fanout completed).1 ++
              [Ev.status s!"Evaluating {(c1 :: c2 :: cs).length} candidates...",
               Ev.status ("Selected: " ++ ev.selected_generator.value ++ " - " ++
                 (ev.selection_reasoning.take 100) ++ "...")],
            Ev.complete ev.selected_drill, by simp [List.append_assoc], rfl, ?_⟩
          intro x hx
          refine hinit2 x
            [Ev.status s!"Evaluating {(c1 :: c2 :: cs).length} candidates...",
             Ev.status ("Selected: " ++ ev.selected_generator.value ++ " - " ++
               (ev.selection_reasoning.take 100) ++ "...")]
            ?_ (by simpa [List.append_assoc] using hx)
          intro y hy
          simp only [List.mem_cons] at hy
          rcases hy with hy | hy | hy
          · subst hy; rfl
          · subst hy; rfl
          · exact absurd hy (List.not_mem_nil y)
        | timeout =>
          simp only [hcands]
          refine ⟨[Ev.status "Starting drill generation...",
              Ev.status s!"Generating {(ALL_GENERATORS.take HOW_MANY_GENERATORS).length} drill candidates in parallel..."] ++
              (drill_stream_fanout completed).1 ++
              [Ev.status s!"Evaluating {(c1 :: c2 :: cs).length} candidates..."],
            Ev.error "Drill generation timed out. Please try again.",
            by simp [List.append_assoc], rfl, ?_⟩
          intro x hx
          refine hinit2 x
            [Ev.status s!"Evaluating {(c1 :: c2 :: cs).length} candidates..."]
            ?_ (by simpa [List.append_assoc] using hx)
          intro y hy
          rw [List.mem_singleton] at hy
          subst hy
          rfl
        | guardIn =>
          simp only [hcands]
          refine ⟨[Ev.status "Starting drill generation...",
              Ev.status s!"Generating {(ALL_GENERATORS.take HOW_MANY_GENERATORS).length} drill candidates in parallel..."] ++
              (drill_stream_fanout completed).1 ++
              [Ev.status s!"Evaluating {(c1 :: c2 :: cs).length} candidates..."],
            Ev.error SAFE_INJECTION_MESSAGE,
            by simp [List.append_assoc], rfl, ?_⟩
          intro x hx
          refine hinit2 x
            [Ev.status s!"Evaluating {(c1 :: c2 :: cs).length} candidates..."]
            ?_ (by simpa [List.append_assoc] using hx)
          intro y hy
          rw [List.mem_singleton] at hy
          subst hy
          rfl
        | guardOut =>
          simp only [hcands]
          refine ⟨[Ev.status "Starting drill generation...",
              Ev.status s!"Generating {(ALL_GENERATORS.take HOW_MANY_GENERATORS).length} drill candidates in parallel..."] ++
              (drill_stream_fanout completed).1 ++
              [Ev.status s!"Evaluating {(c1 :: c2 :: cs).length} candidates..."],
            Ev.error SAFE_LEAKAGE_MESSAGE,
            by simp [List.append_assoc], rfl, ?_⟩
          intro x hx
          refine hinit2 x
            [Ev.status s!"Evaluating {(c1 :: c2 :: cs).length} candidates..."]
            ?_ (by simpa [List.append_assoc] using hx)
          intro y hy
          rw [List.mem_singleton] at hy
          subst hy
          rfl
        | exc m =>
          simp only [hcands]
          refine ⟨[Ev.status "Starting drill generation...",
              Ev.status s!"Generating {(ALL_GENERATORS.take HOW_MANY_GENERATORS).length} drill candidates in parallel..."] ++
              (drill_stream_fanout completed).1 ++
              [Ev.status s!"Evaluating {(c1 :: c2 :: cs).length} candidates..."],
            Ev.error s!"Drill generation failed: {m}",
            by simp [List.append_assoc], rfl, ?_⟩
          intro x hx
          refine hinit2 x
            [Ev.status s!"Evaluating {(c1 :: c2 :: cs).length} candidates..."]
            ?_ (by simpa [List.append_assoc] using hx)
          intro y hy
          rw [List.mem_singleton] at hy
          subst hy
          rfl
/-! ## Scout Search Orchestrator (backend/app/services/scout_orchestrator.py,
repo_filtering.py)

Only the fields the orchestrator and the pure filtering functions read are
modelled; database writes and README contents are side effects/agent inputs
that do not influence the emitted events.  `is_cancelled` does not exist on
the source `TaskRegistry` (see C1); its polls are modelled from the spec as an
environment sequence of booleans (`cancelFlags`), the answers the
cancelled-marker query returns at the successive `_check_cancelled` sites.
The contribution score (`float` in the source: `min(gfi,10)*2.0 +
min(hw,10)*1.5 + min(oi,100)*0.1`) is modelled scaled by 10 in `Nat`; only
the induced ordering is observable, and no claim depends on float-rounding
ties. -/

structure RepoMetadata where
  owner : String
  name : String
  description : Option String
  star_count : Nat
  open_issue_count : Nat
  good_first_issue_count : Nat
  help_wanted_count : Nat
deriving DecidableEq, Repr

structure SearchFilters where
  min_stars : Nat
  max_stars : Nat
  topics : List String
deriving DecidableEq, Repr

structure AnalysisResult where
  repo : String
  fit_score : ℚ
  reject : Bool
deriving DecidableEq, Repr

structure ScoutSearchResult where
  run_id : String
  status : String
  total_discovered : Nat
  total_filtered : Nat
  total_analyzed : Nat
  results : List AnalysisResult
  repos : List RepoMetadata
  warnings : List String
deriving DecidableEq, Repr

/-- Trailing word boundary: the next character, if any, is not a word
character. -/
def pboundEnd : RMatch := fun cs =>
  match cs with
  | [] => some []
  | c :: _ => if isWordN c then none else some cs

/-- `re.search` for a pattern whose regex starts with a word boundary and a
word character: try each position whose previous character (if any) is not a
word character. -/
def bsearchGo (p : RMatch) : Option Nat → List Nat → Bool
  | _, [] => false
  | prev, c :: rest =>
    ((match prev with
      | none => true
      | some q => !(isWordN q)) && pmatch p (c :: rest)) || bsearchGo p (some c) rest

def bsearch (p : RMatch) (cs : List Nat) : Bool := bsearchGo p none cs

/-- `TUTORIAL_PATTERNS`, each transcribed for `bsearch` (leading boundary
implicit); compiled with `re.IGNORECASE`, so run on lowered text.  The quoted
regexes: `\bawesome[-_]`, `\btutorial\b`, `\blearn[-_]`, `\bcheatsheet\b`,
`\bcourse\b`, `\binterview[-_]prep\b`, `\bcurated\s+list\b`,
`\bcoding[-_]challenge\b`. -/
def TUTORIAL_MATCHERS : List RMatch :=
  [pseq (pstr (str2codes "awesome"))
     (palt [pstr (str2codes "-"), pstr (str2codes "_")]),
   pseq (pstr (str2codes "tutorial")) pboundEnd,
   pseq (pstr (str2codes "learn"))
     (palt [pstr (str2codes "-"), pstr (str2codes "_")]),
   pseq (pstr (str2codes "cheatsheet")) pboundEnd,
   pseq (pstr (str2codes "course")) pboundEnd,
   pseq (pstr (str2codes "interview"))
     (pseq (palt [pstr (str2codes "-"), pstr (str2codes "_")])
       (pseq (pstr (str2codes "prep")) pboundEnd)),
   pseq (pstr (str2codes "curated"))
     (pseq pws1 (pseq (pstr (str2codes "list")) pboundEnd)),
   pseq (pstr (str2codes "coding"))
     (pseq (palt [pstr (str2codes "-"), pstr (str2codes "_")])
       (pseq (pstr (str2codes "challenge")) pboundEnd))]

/-- `is_tutorial_or_awesome_list`: search the joined name-space-description
text against the tutorial patterns. -/
def is_tutorial_or_awesome_list (repo : RepoMetadata) : Bool :=
  let text := str2codes repo.name ++ 32 :: str2codes (repo.description.getD "")
  TUTORIAL_MATCHERS.any (fun p => bsearch p (lowerCodes text))

/-- `has_open_issues` -/
def has_open_issues (repo : RepoMetadata) : Bool := 0 < repo.open_issue_count

/-- `compute_contribution_score`, scaled by 10 (source floats 2.0/1.5/0.1). -/
def compute_contribution_score (repo : RepoMetadata) : Nat :=
  min repo.good_first_issue_count 10 * 20 +
  min repo.help_wanted_count 10 * 15 +
  min repo.open_issue_count 100

/-- Stable descending insertion (Python `list.sort` with a key and
`reverse=True` is stable: an element goes after every earlier element whose
key is at least its own). -/
def insertDesc {α β : Type} [LinearOrder β] (key : α → β) (x : α) :
    List α → List α
  | [] => [x]
  | y :: ys => if key x > key y then x :: y :: ys else y :: insertDesc key x ys

def sortDesc {α β : Type} [LinearOrder β] (key : α → β) (l : List α) : List α :=
  l.foldl (fun acc x => insertDesc key x acc) []

/-- `apply_filters`: drop tutorials/awesome-lists, repos with no open issues
and repos outside the star range, then sort by contribution score
descending. -/
def apply_filters (repos : List RepoMetadata) (min_stars max_stars : Nat) :
    List RepoMetadata :=
  sortDesc compute_contribution_score
    (repos.filter (fun r =>
      !is_tutorial_or_awesome_list r && has_open_issues r &&
      !(r.star_count < min_stars) && !(r.star_count > max_stars)))

/-- `settings.scout_max_repos` (config.py). -/
def scout_max_repos : Nat := 50

/-- `settings.scout_batch_size` (config.py). -/
def scout_batch_size : Nat := 10

/-- Outcome of one `analyze_batch` task. -/
inductive BatchOutcome where
  | ok (results : List AnalysisResult)
  | timeout
  | exc (msg : String)

/-- The outcome environment of one scout run: the two
`client.search_repositories` calls (initial and topic-relaxed retry), the
filter parameters, the per-batch analysis outcomes in completion order, and
the successive answers of the (spec-modelled, see C1) `is_cancelled` polls. -/
structure ScoutEnv where
  discovered : List RepoMetadata × List String
  relaxed : List RepoMetadata × List String
  filters : SearchFilters
  batchRun : List BatchOutcome
  cancelFlags : Nat → Bool

/-- `_discover`: retry without topics when the first search is empty and
topics were set; the retry warning is appended only when the retry found
repos. -/
def scout_discover (env : ScoutEnv) : List RepoMetadata × List String :=
  let repos := env.discovered.1
  let warnings := env.discovered.2
  if repos.isEmpty ∧ ¬ env.filters.topics.isEmpty then
    let ts := String.intercalate ", " env.filters.topics
    let repos2 := env.relaxed.1
    let warnings2 := warnings ++ env.relaxed.2 ++
      (if ¬ repos2.isEmpty then
        [s!"No repos matched topic filter ({ts}). " ++
          "Showing results without topic filter — " ++
          "topics still influence AI ranking."]
       else [])
    (repos2, warnings2)
  else (repos, warnings)

/-- The consuming loop of `_run_analysis` over the batch tasks in completion
order (one task per `asyncio.wait` round), with a cancellation poll before
each round: returns (yielded events, accumulated results, whether
`CancelledError` was raised). -/
def run_analysis_go (total bs : Nat) (flags : Nat → Bool) :
    List BatchOutcome → Nat → Nat →
      List (Ev ScoutSearchResult) × List AnalysisResult × Bool
  | [], _, _ => ([], [], false)
  | o :: rest, analyzed, k =>
    if flags k then ([], [], true)
    else
      match o with
      | .ok results =>
        let analyzed2 := analyzed + results.length
        let r := run_analysis_go total bs flags rest analyzed2 (k + 1)
        (Ev.progress s!"Analyzed {analyzed2}/{total} repos..." :: r.1,
         results ++ r.2.1, r.2.2)
      | .timeout =>
        let analyzed2 := min (analyzed + bs) total
        let r := run_analysis_go total bs flags rest analyzed2 (k + 1)
        (Ev.error s!"Batch timed out ({analyzed2}/{total})" :: r.1, r.2.1, r.2.2)
      | .exc _ =>
        let analyzed2 := min (analyzed + bs) total
        let r := run_analysis_go total bs flags rest analyzed2 (k + 1)
        (Ev.error s!"Batch failed ({analyzed2}/{total})" :: r.1, r.2.1, r.2.2)

/-- `scout_search_stream`: the full scout event sequence.  Event `phase`
fields and database writes are dropped; `_cancelled_event` is a
status-typed event. -/
def scout_search_stream (env : ScoutEnv) (run_id : String) :
    List (Ev ScoutSearchResult) :=
  let ev1 : Ev ScoutSearchResult := .status "Searching GitHub..."
  let d := scout_discover env
  let repos := d.1
  let warnings := d.2
  let ev2 : Ev ScoutSearchResult := .status s!"Discovered {repos.length} repositories"
  if repos.isEmpty then
    [ev1, ev2, Ev.error "No repositories found. Try broadening your filters."]
  else if env.cancelFlags 0 then [ev1, ev2, Ev.status "Search cancelled"]
  else
    let ev3 : Ev ScoutSearchResult := .status "Filtering candidates..."
    let filtered := apply_filters repos env.filters.min_stars env.filters.max_stars
    let capped := filtered.take scout_max_repos
    let ev4 : Ev ScoutSearchResult := .status s!"{filtered.length} repos passed filters"
    if filtered.isEmpty then
      [ev1, ev2, ev3, ev4,
       Ev.error "All repos filtered out. Try adjusting your filters."]
    else if env.cancelFlags 1 then [ev1, ev2, ev3, ev4, Ev.status "Search cancelled"]
    else
      let ev5 : Ev ScoutSearchResult :=
        .status s!"Fetching READMEs for {capped.length} repos..."
      if env.cancelFlags 2 then
        [ev1, ev2, ev3, ev4, ev5, Ev.status "Search cancelled"]
      else
        let ev6 : Ev ScoutSearchResult := .status "Starting AI analysis..."
        let a := run_analysis_go capped.length scout_batch_size
          (fun k => env.cancelFlags (k + 3)) env.batchRun 0 0
        if a.2.2 then
          [ev1, ev2, ev3, ev4, ev5, ev6] ++ a.1 ++ [Ev.status "Search cancelled"]
        else
          let all_results := a.2.1
          let status := if all_results.length < capped.length then "partial"
            else "completed"
          let visible := sortDesc (fun r => r.fit_score)
            (all_results.filter (fun r => !r.reject))
          [ev1, ev2, ev3, ev4, ev5, ev6] ++ a.1 ++
            [Ev.complete ⟨run_id, status, repos.length, filtered.length,
              all_results.length, visible, capped, warnings⟩]


/-- C2 (amended): in the research and drill-generation pipelines, `complete`
and `error` are mutually exclusive terminal markers — every run's event
sequence is a block of non-terminal events followed by exactly one terminal
event.  (The scout pipeline violates the original claim: see the
counterexample, where a per-batch failure emits a non-terminal `error` event
and the run still ends with `complete`.) -/
theorem claim_C2 :
    (∀ env : ResearchEnv, ∃ init t, research_company_stream env = init ++ [t] ∧
      Ev.isTerminal t = true ∧ ∀ e ∈ init, Ev.isTerminal e = false) ∧
    (∀ (completed : List (DrillType × String × GenOutcome)) (eo : EvalOutcome),
      ∃ init t, (generate_drill_stream completed eo).1 = init ++ [t] ∧
        Ev.isTerminal t = true ∧ ∀ e ∈ init, Ev.isTerminal e = false) :=
  ⟨research_stream_terminal, drill_stream_terminal⟩

/-- C2 (counterexample to the original claim): a concrete scout run — one
discovered repository passing the filters, whose single analysis batch times
out — emits an `error` event ("Batch timed out (1/1)") and still ends with a
terminal `complete` event, so a scout run can contain both event types. -/
theorem claim_C2_counterexample :
    (∃ e ∈ scout_search_stream
        ⟨([⟨"o", "widget", none, 5, 3, 0, 0⟩], []), ([], []), ⟨0, 50000, []⟩,
          [BatchOutcome.timeout], fun _ => false⟩ "r1",
      Ev.isError e = true) ∧
    (∃ e ∈ scout_search_stream
        ⟨([⟨"o", "widget", none, 5, 3, 0, 0⟩], []), ([], []), ⟨0, 50000, []⟩,
          [BatchOutcome.timeout], fun _ => false⟩ "r1",
      Ev.isComplete e = true) := by
  decide

end YoureHired
